import Mathlib

/-!
Verification development for the Soletta build-time scripts.

The Python scripts under data/scripts/ are shallowly embedded as pure Lean
functions.  External effects (subprocess exit codes, the behaviour of the
json and jsonschema libraries, the filesystem) are passed in explicitly as
oracle values, so every function here is computable and deterministic.
Strings are modelled as Lean strings; the scripts only handle ASCII
identifiers, so ASCII case mapping is used for Python str.upper and
str.lower.
-/

/-- ASCII model of Python str.upper.  (Character-list based so that every
definition here reduces by plain structural recursion.) -/
def pyUpper (s : String) : String := String.mk (s.toList.map Char.toUpper)

/-- ASCII model of Python str.lower. -/
def pyLower (s : String) : String := String.mk (s.toList.map Char.toLower)

/-- Model of c_clean from sol-flow-node-type-gen.py: replace every character
outside the class A-Za-z0-9_ with an underscore. -/
def cClean (s : String) : String :=
  String.mk (s.toList.map (fun c => if c.isAlphanum || c = '_' then c else '_'))

/-- Python "%0*d" zero-padded integer formatting: pad the decimal rendering
of n with leading zeros up to width w. -/
def padZeros (w n : Nat) : String :=
  let s := toString n
  String.mk (List.replicate (w - s.length) '0') ++ s

/-- Concatenation of a list of strings, in order. -/
def strConcat (l : List String) : String := l.foldr (· ++ ·) ""

/-- Python ", ".join and friends. -/
def strJoinSep (sep : String) (l : List String) : String :=
  match l with
  | [] => ""
  | x :: xs => xs.foldl (fun acc y => acc ++ sep ++ y) x

/-- Splitting at newline characters, the semantics of Python
str.split with separator a newline: an empty string yields one empty
piece, and a trailing newline yields a trailing empty piece. -/
def splitNlAux : List Char → List Char → List String
  | [], acc => [String.mk acc.reverse]
  | c :: rest, acc =>
    if c = '\n' then String.mk acc.reverse :: splitNlAux rest []
    else splitNlAux rest (c :: acc)

/-- Python contents.split at newlines. -/
def pySplitNl (s : String) : List String := splitNlAux s.toList []

/-- Decoded JSON values, the shape the scripts receive from json.loads.
Numbers carry their Python str()/repr() rendering, because the generator
scripts only ever interpolate numbers into output templates (and, for the
integer case, compare against Python int via type checks).  Object fields
are listed in insertion order with unique keys, as produced by json.loads. -/
inductive JVal where
  | jnull
  | jbool (b : Bool)
  | jint (render : String)
  | jfloat (render : String)
  | jstr (s : String)
  | jarr (items : List JVal)
  | jobj (fields : List (String × JVal))
deriving Repr

/-- Replace the value of key k (first occurrence, keeping its position) or
append the pair, the semantics of Python dict assignment. -/
def assocSet (l : List (String × JVal)) (k : String) (v : JVal) : List (String × JVal) :=
  match l with
  | [] => [(k, v)]
  | (k0, v0) :: rest =>
    if k0 = k then (k0, v) :: rest else (k0, v0) :: assocSet rest k v

/-- Python dict .get on a decoded JSON object; none when the receiver is not
an object or the key is absent. -/
def JVal.get? (v : JVal) (k : String) : Option JVal :=
  match v with
  | .jobj fs => fs.lookup k
  | _ => none

/-- Python dict assignment data[k] = v on a decoded JSON object.  The
scripts only assign into dicts; other receivers are left unchanged (such a
state is never reached on the shapes the scripts build). -/
def JVal.set (v : JVal) (k : String) (x : JVal) : JVal :=
  match v with
  | .jobj fs => .jobj (assocSet fs k x)
  | other => other

/-- Python membership test k in d for a decoded JSON object, the only
receiver shape the scripts apply it to. -/
def pyIn (k : String) (v : JVal) : Bool :=
  (v.get? k).isSome

/-- Python exceptions the scripts can raise, as far as the claims need to
distinguish them. -/
inductive PyErr where
  | keyError (k : String)
  | attributeError
  | typeError
  | indexError
  | recursionError
deriving Repr

/-- Python truthiness of a decoded JSON value.  Number renderings are the
canonical Python renderings, so an int is falsy exactly when it renders as
"0" and a float when it renders as "0.0" or "-0.0". -/
def pyTruthy (v : JVal) : Bool :=
  match v with
  | .jnull => false
  | .jbool b => b
  | .jint r => r ≠ "0"
  | .jfloat r => r ≠ "0.0" && r ≠ "-0.0"
  | .jstr s => s ≠ ""
  | .jarr items => !items.isEmpty
  | .jobj fs => !fs.isEmpty

/-- Python repr of a string: single-quoted unless it contains a single
quote and no double quote, with the quote character and backslash escaped. -/
def pyStrRepr (s : String) : String :=
  let q : Char := if s.toList.contains '\x27' && !s.toList.contains '"' then '"' else '\x27'
  let body := s.toList.map (fun c =>
    if c = q || c = '\\' then String.mk ['\\', c] else String.mk [c])
  String.mk [q] ++ strConcat body ++ String.mk [q]

mutual

/-- Python repr of a decoded JSON value.  Strings are rendered with single
quotes (double quotes when the string itself contains a single quote but no
double quote), numbers by their carried rendering, containers recursively;
escaping of control characters is not needed for the identifiers involved. -/
def pyRepr : JVal → String
  | .jnull => "None"
  | .jbool b => if b then "True" else "False"
  | .jint r => r
  | .jfloat r => r
  | .jstr s => pyStrRepr s
  | .jarr items => "[" ++ strJoinSep ", " (pyReprList items) ++ "]"
  | .jobj fs => "\x7b" ++ strJoinSep ", " (pyReprFields fs) ++ "\x7d"

def pyReprList : List JVal → List String
  | [] => []
  | v :: rest => pyRepr v :: pyReprList rest

def pyReprFields : List (String × JVal) → List String
  | [] => []
  | (k, v) :: rest => (pyStrRepr k ++ ": " ++ pyRepr v) :: pyReprFields rest

end

/-- Python str of a decoded JSON value: like repr except that strings are
rendered verbatim. -/
def pyStr (v : JVal) : String :=
  match v with
  | .jstr s => s
  | other => pyRepr other

/-- Python d[k] on a decoded JSON object: KeyError when absent, TypeError
when the receiver is not a dict. -/
def getItem (v : JVal) (k : String) : Except PyErr JVal :=
  match v with
  | .jobj fs =>
    match fs.lookup k with
    | some x => .ok x
    | none => .error (.keyError k)
  | _ => .error (.typeError)

/-- Expect a decoded string, as the scripts do when they call string methods
on a value (a non-string raises AttributeError at the method lookup). -/
def asStr (v : JVal) : Except PyErr String :=
  match v with
  | .jstr s => .ok s
  | _ => .error (.attributeError)

/-- Expect a decoded list, as the scripts do when they iterate with for. -/
def asArr (v : JVal) : Except PyErr (List JVal) :=
  match v with
  | .jarr items => .ok items
  | _ => .error (.typeError)

/-- Expect a Python int (for %d formatting of the options version). -/
def asIntRender (v : JVal) : Except PyErr String :=
  match v with
  | .jint r => .ok r
  | _ => .error (.typeError)

/-!
## dependency-resolver.py

The DepContext and the six check handlers.  Subprocess results (run_command
exit statuses and outputs, which(exe) results, compile_test outcomes) are
supplied as oracle values bundled with each check.
-/

/-- One Kconfig table entry: dependency-resolver.py DepContext.add_kconfig
stores a dict with a value and a type under the key. -/
structure KEntry where
  value : String
  ktype : String
deriving Repr, DecidableEq

/-- One Makefile variable: value plus its attribution operator. -/
structure MEntry where
  value : String
  attrib : String
deriving Repr, DecidableEq

/-- Replace-or-append assignment for the context tables, the semantics of
Python dict assignment used by DepContext. -/
def tblSet (l : List (String × α)) (k : String) (v : α) : List (String × α) :=
  match l with
  | [] => [(k, v)]
  | (k0, v0) :: rest =>
    if k0 = k then (k0, v) :: rest else (k0, v0) :: tblSet rest k v

/-- The dependency-resolver context: the Kconfig table and the Makefile
variable table, both insertion-ordered dicts. -/
structure DepContext where
  kconfig : List (String × KEntry)
  makefileVars : List (String × MEntry)
deriving Repr, DecidableEq

/-- DepContext.__init__: both tables start empty. -/
def DepContext.init : DepContext := ⟨[], []⟩

/-- DepContext.add_kconfig. -/
def DepContext.addKconfig (ctx : DepContext) (k t v : String) : DepContext :=
  { ctx with kconfig := tblSet ctx.kconfig k ⟨v, t⟩ }

/-- DepContext.add_makefile_var: when the key is present with the same
attribution, overwrite or append the value; otherwise replace the entry. -/
def DepContext.addMakefileVar (ctx : DepContext) (k v attrib : String)
    (overwrite : Bool) : DepContext :=
  let curr := ctx.makefileVars.lookup k
  let currVal :=
    match curr with
    | some c =>
      if c.attrib = attrib then
        if overwrite then v else c.value ++ " " ++ v
      else v
    | none => v
  { ctx with makefileVars := tblSet ctx.makefileVars k ⟨currVal, attrib⟩ }

/-- DepContext.add_append_makefile_var (attribution "+="). -/
def DepContext.addAppendMakefileVar (ctx : DepContext) (k v : String)
    (overwrite : Bool := false) : DepContext :=
  ctx.addMakefileVar k v "+=" overwrite

/-- DepContext.add_cond_makefile_var (attribution "?="). -/
def DepContext.addCondMakefileVar (ctx : DepContext) (k v : String)
    (overwrite : Bool := false) : DepContext :=
  ctx.addMakefileVar k v "?=" overwrite

/-- DepContext.find_makefile_var: the stored value, or "" when absent. -/
def DepContext.findMakefileVar (ctx : DepContext) (k : String) : String :=
  match ctx.makefileVars.lookup k with
  | some c => c.value
  | none => ""

/-- Truthiness of an optional string field of a check description (absent or
empty is falsy, as in Python). -/
def optTruthy (o : Option String) : Bool :=
  match o with
  | some s => s ≠ ""
  | none => false

/-- A pkg-config check description: the fields handle_pkgconfig_check reads. -/
structure PkgConf where
  dependency : String
  pkgname : String
  exactVersion : Option String := none
  atleastVersion : Option String := none
  maxVersion : Option String := none
deriving Repr

/-- Oracle for the subprocesses handle_pkgconfig_check may run: the status
of the version query (whichever of exact/atleast/max runs) and the outputs
and statuses of the cflags and libs queries. -/
structure PkgOracle where
  verStatus : Bool
  cflagsOut : String
  cflagsStatus : Bool
  ldflagsOut : String
  ldflagsStatus : Bool
deriving Repr

/-- handle_pkgconfig_check.  Returns the updated context and the handler
result.  A failed version query forces ver_match false; the cflags/ldflags
queries run only when ver_match holds, and success requires ver_match plus
at least one of them succeeding (in Python the unset statuses are None,
which is falsy exactly like false here). -/
def handlePkgconfigCheck (conf : PkgConf) (orc : PkgOracle) (ctx : DepContext) :
    DepContext × Bool :=
  let dep := pyUpper conf.dependency
  let verRequested :=
    optTruthy conf.exactVersion || optTruthy conf.atleastVersion ||
      optTruthy conf.maxVersion
  let verMatch := !verRequested || orc.verStatus
  let cflagsStat := verMatch && orc.cflagsStatus
  let ldflagsStat := verMatch && orc.ldflagsStatus
  let ctx := if cflagsStat then
      ctx.addCondMakefileVar (dep ++ "_CFLAGS") orc.cflagsOut
    else ctx
  let ctx := if ldflagsStat then
      ctx.addCondMakefileVar (dep ++ "_LDFLAGS") orc.ldflagsOut
    else ctx
  let success := (cflagsStat || ldflagsStat) && verMatch
  let haveVar := if success then "y" else "n"
  (ctx.addKconfig ("HAVE_" ++ dep) "bool" haveVar, success)

/-- The cflags or ldflags sub-dict of a ccode check. -/
structure FlagsSpec where
  value : Option String := none
  appendTo : Option String := none
deriving Repr

/-- A ccode check description: the fields handle_ccode_check reads.  The
defines/headers lists feed only the compiled source, which the compile
oracle abstracts. -/
structure CcodeConf where
  dependency : String
  cflags : Option FlagsSpec := none
  ldflags : Option FlagsSpec := none
deriving Repr

/-- set_makefile_compflags: skip when no value; append to the given variable
when append_to is set, otherwise set PREFIX_SUFFIX conditionally. -/
def setMakefileCompflags (ctx : DepContext) (flags : FlagsSpec)
    (pfxName sfx : String) : DepContext :=
  match flags.value with
  | none => ctx
  | some v =>
    if v = "" then ctx
    else
      match flags.appendTo with
      | some a =>
        if a ≠ "" then ctx.addAppendMakefileVar a v
        else ctx.addCondMakefileVar (pfxName ++ "_" ++ sfx) v
      | none => ctx.addCondMakefileVar (pfxName ++ "_" ++ sfx) v

/-- handle_ccode_check with the compile_test outcome as oracle: on success
record HAVE_<DEP>=y in Kconfig and install the flag variables, otherwise
record HAVE_<DEP>=n. -/
def handleCcodeCheck (conf : CcodeConf) (compileOk : Bool) (ctx : DepContext) :
    DepContext × Bool :=
  let dep := pyUpper conf.dependency
  if compileOk then
    let ctx := ctx.addKconfig ("HAVE_" ++ dep) "bool" "y"
    let ctx := match conf.cflags with
      | some f => setMakefileCompflags ctx f dep "CFLAGS"
      | none => ctx
    let ctx := match conf.ldflags with
      | some f => setMakefileCompflags ctx f dep "LDFLAGS"
      | none => ctx
    (ctx, true)
  else
    (ctx.addKconfig ("HAVE_" ++ dep) "bool" "n", false)

/-- An exec check description. -/
structure ExecConf where
  dependency : String
  exec : Option String := none
  required : Bool := false
deriving Repr

/-- handle_exec_check with the which(exe) result as oracle; exits when no
exec was specified.  Only Makefile variables are touched. -/
def handleExecCheck (conf : ExecConf) (whichPath : Option String)
    (ctx : DepContext) : Except Unit (DepContext × Bool) :=
  let depSym := pyUpper conf.dependency
  match conf.exec with
  | none => .error ()
  | some exe =>
    if exe = "" then .error ()
    else
      let path := match whichPath with | some p => p | none => ""
      let success := optTruthy whichPath
      let ctx :=
        if conf.required && !success then
          let reqLabel := ctx.findMakefileVar "NOT_FOUND" ++
            "executable: " ++ exe ++ "\\n"
          ctx.addAppendMakefileVar "NOT_FOUND" reqLabel true
        else ctx
      let ctx := ctx.addCondMakefileVar depSym path
      let ctx := ctx.addCondMakefileVar ("HAVE_" ++ depSym)
        (if optTruthy whichPath then "y" else "n")
      .ok (ctx, success)

/-- A python check description. -/
structure PyConf where
  dependency : String
  pkgname : Option String := none
  required : Bool := false
deriving Repr

/-- handle_python_check with the import-test subprocess status as oracle;
exits when no pkgname was specified.  The result is recorded only as the
Makefile variable HAVE_PYTHON_<DEP>; the Kconfig table is untouched. -/
def handlePythonCheck (conf : PyConf) (importOk : Bool) (ctx : DepContext) :
    Except Unit (DepContext × Bool) :=
  match conf.pkgname with
  | none => .error ()
  | some pkg =>
    if pkg = "" then .error ()
    else
      let ctx :=
        if conf.required && !importOk then
          let reqLabel := ctx.findMakefileVar "NOT_FOUND" ++
            "python module: " ++ pkg ++ "\\n"
          ctx.addAppendMakefileVar "NOT_FOUND" reqLabel true
        else ctx
      let ctx := ctx.addCondMakefileVar
        ("HAVE_PYTHON_" ++ pyUpper conf.dependency)
        (if importOk then "y" else "n")
      .ok (ctx, importOk)

/-- A cflags/ldflags check description together with the compile oracles:
the outcome of the combined compile test and the per-character outcomes of
the fallback loop (handle_flags_check iterates over the characters of the
joined flags string, because it rebinds flags to the joined string before
the loop). -/
structure FlagsConf where
  appendTo : Option String := none
  flags : List String := []
  firstOk : Bool := false
  perCharOk : List Bool := []
deriving Repr

/-- The fallback loop of handle_flags_check: each character of the joined
flags string is compile-tested together with the already-supported ones. -/
def flagsCheckLoop (chars : List Char) (oks : List Bool)
    (supported : List String) : List String :=
  match chars, oks with
  | [], _ => supported
  | _, [] => supported
  | c :: cs, ok :: oks =>
    if ok then flagsCheckLoop cs oks (supported ++ [String.mk [c]])
    else flagsCheckLoop cs oks supported

/-- handle_flags_check (shared by the cflags and ldflags handlers): on a
successful combined compile append all flags, else append whichever pieces
pass individually.  The Kconfig table is untouched; the function exits when
no flags were supplied. -/
def handleFlagsCheck (conf : FlagsConf) (ctx : DepContext) :
    Except Unit (DepContext × Bool) :=
  if conf.flags.isEmpty then .error ()
  else
    let joined := strJoinSep " " conf.flags
    let appendKey := match conf.appendTo with | some a => a | none => "None"
    if conf.firstOk then
      .ok (ctx.addAppendMakefileVar appendKey joined, true)
    else
      let supported := flagsCheckLoop joined.toList conf.perCharOk []
      if supported.isEmpty then .ok (ctx, false)
      else .ok (ctx.addAppendMakefileVar appendKey (strJoinSep " " supported), true)

/-- One dependency check of the configuration file, bundled with the oracle
for the subprocesses it will run. -/
inductive DepCheck where
  | pkgconfig (conf : PkgConf) (orc : PkgOracle)
  | ccode (conf : CcodeConf) (compileOk : Bool)
  | execCheck (conf : ExecConf) (whichPath : Option String)
  | pythonCheck (conf : PyConf) (importOk : Bool)
  | cflagsCheck (conf : FlagsConf)
  | ldflagsCheck (conf : FlagsConf)
deriving Repr

/-- Dispatch one check through its handler, as run() does. -/
def runCheck (c : DepCheck) (ctx : DepContext) : Except Unit (DepContext × Bool) :=
  match c with
  | .pkgconfig conf orc => .ok (handlePkgconfigCheck conf orc ctx)
  | .ccode conf ok => .ok (handleCcodeCheck conf ok ctx)
  | .execCheck conf p => handleExecCheck conf p ctx
  | .pythonCheck conf ok => handlePythonCheck conf ok ctx
  | .cflagsCheck conf => handleFlagsCheck conf ctx
  | .ldflagsCheck conf => handleFlagsCheck conf ctx

/-- run(): fold every check through its handler; a handler calling exit
aborts the whole run. -/
def runChecks (checks : List DepCheck) (ctx : DepContext) :
    Except Unit DepContext :=
  match checks with
  | [] => .ok ctx
  | c :: rest =>
    match runCheck c ctx with
    | .error e => .error e
    | .ok (ctx', _) => runChecks rest ctx'

/-- kconfig_gen: one config stanza per Kconfig table entry. -/
def kconfigGen (ctx : DepContext) : String :=
  strConcat (ctx.kconfig.map (fun kv =>
    "config " ++ kv.1 ++ "\n       " ++ kv.2.ktype ++ "\n       default " ++
      kv.2.value ++ "\n"))

/-!
## sol-flow-node-type-gen.py: conversion tables and small helpers
-/

/-- The fixed data_type to C type mapping table of the generator. -/
def dataTypeToCMap : List (String × String) :=
  [("boolean", "bool"),
   ("byte", "unsigned char"),
   ("int", "struct sol_irange"),
   ("float", "struct sol_drange"),
   ("rgb", "struct sol_rgb"),
   ("string", "const char *")]

/-- data_type_to_c: a plain table lookup; a key outside the table raises
KeyError, which aborts generation. -/
def dataTypeToC (t : String) : Except PyErr String :=
  match dataTypeToCMap.lookup t with
  | some c => .ok c
  | none => .error (.keyError t)

/-- The data_type to defvalue-member table. -/
def dataTypeToDefaultMemberMap : List (String × String) :=
  [("boolean", "b"),
   ("byte", "byte"),
   ("int", "i"),
   ("float", "f"),
   ("string", "s"),
   ("rgb", "rgb")]

/-- data_type_to_default_member: lookup with default "ptr". -/
def dataTypeToDefaultMember (t : String) : String :=
  (dataTypeToDefaultMemberMap.lookup t).getD "ptr"

/-- The data_type to packet type table. -/
def dataTypeToPacketTypeMap : List (String × String) :=
  [("empty", "SOL_FLOW_PACKET_TYPE_EMPTY"),
   ("boolean", "SOL_FLOW_PACKET_TYPE_BOOLEAN"),
   ("int", "SOL_FLOW_PACKET_TYPE_IRANGE"),
   ("byte", "SOL_FLOW_PACKET_TYPE_BYTE"),
   ("string", "SOL_FLOW_PACKET_TYPE_STRING"),
   ("blob", "SOL_FLOW_PACKET_TYPE_BLOB"),
   ("float", "SOL_FLOW_PACKET_TYPE_DRANGE"),
   ("rgb", "SOL_FLOW_PACKET_TYPE_RGB"),
   ("any", "SOL_FLOW_PACKET_TYPE_ANY"),
   ("error", "SOL_FLOW_PACKET_TYPE_ERROR")]

/-- packet_type_from_data_type: custom types pass through after the
custom: marker is stripped, otherwise a lookup defaulting to the name
itself.  The stored JSON value must be a string (startswith). -/
def packetTypeFromDataType (t : JVal) : Except PyErr String := do
  let s ← asStr t
  if "custom:".toList.isPrefixOf s.toList then .ok (String.mk (s.toList.drop 7))
  else .ok ((dataTypeToPacketTypeMap.lookup s).getD s)

/-- Decimal value of a digit list. -/
def natOfDigits (ds : List Char) : Nat :=
  ds.foldl (fun a c => a * 10 + (c.toNat - 48)) 0

/-- port_name_and_size: match ([A-Z0-9_]+)(?:\[([0-9]+)\])? against the
start of the declared port name; the size group defaults to 0 when the
bracket part does not match.  An empty name part makes re.match return
None and the script crash on m.groups (modelled as AttributeError). -/
def portNameAndSize (orig : String) : Except PyErr (String × Nat) :=
  let cs := orig.toList
  let nameChars := cs.takeWhile (fun c => c.isUpper || c.isDigit || c = '_')
  if nameChars.isEmpty then .error .attributeError
  else
    let rest := cs.drop nameChars.length
    let size :=
      match rest with
      | '[' :: t =>
        let ds := t.takeWhile Char.isDigit
        if !ds.isEmpty && (t.drop ds.length).head? = some ']' then
          natOfDigits ds
        else 0
      | _ => 0
    .ok (String.mk nameChars, size)

/-- str_to_c: wrap in double quotes, escaping embedded double quotes (the
.replace with a one-character pattern acts on each such character). -/
def strToC (s : String) : String :=
  "\"" ++ strConcat (s.toList.map
    (fun c => if c = '"' then "\\\"" else String.mk [c])) ++ "\""

/-- str_to_c_or_null applied to the result of a dict .get: Python None
(absent key, or a JSON null value) becomes NULL, a string is quoted, and
anything else crashes in str_to_c on the .replace call. -/
def strToCOrNull (v : Option JVal) : Except PyErr String :=
  match v with
  | none => .ok "NULL"
  | some .jnull => .ok "NULL"
  | some (.jstr s) => .ok (strToC s)
  | some _ => .error .attributeError

/-- str_to_c applied to the result of a dict .get where the script does
not tolerate None (the in_ports description field): None or any
non-string crashes on .replace. -/
def strToCReq (v : Option JVal) : Except PyErr String :=
  match v with
  | some (.jstr s) => .ok (strToC s)
  | _ => .error .attributeError

/-- bool_to_c on a Python truth value. -/
def boolToC (b : Bool) : String :=
  if b then "true" else "false"

/-- value_to_c.  The data_type is the raw JSON value (compared against the
type-name strings); the default value is rendered per data type.  For int
a bare Python int yields value, INT32_MIN, INT32_MAX, 1; an object fills
the absent val, min, max, step fields with 0, INT32_MIN, INT32_MAX, 1;
float is analogous with 0, -DBL_MAX, DBL_MAX, DBL_MIN, a bare int or
float both taking the bare branch; any other value shape crashes on the
.get call. -/
def valueToC (value : JVal) (dataType : JVal) : Except PyErr String :=
  match dataType with
  | .jstr "string" =>
    (match value with
    | .jnull => .ok "NULL"
    | .jstr s => .ok (strToC s)
    | _ => .error .attributeError)
  | .jstr "boolean" =>
    .ok (boolToC (pyTruthy value))
  | .jstr "rgb" =>
    (match value with
    | .jobj fs =>
      let red := pyStr ((fs.lookup "red").getD (.jint "0"))
      let green := pyStr ((fs.lookup "green").getD (.jint "0"))
      let blue := pyStr ((fs.lookup "blue").getD (.jint "0"))
      let redMax := pyStr ((fs.lookup "red_max").getD (.jint "255"))
      let greenMax := pyStr ((fs.lookup "green_max").getD (.jint "255"))
      let blueMax := pyStr ((fs.lookup "blue_max").getD (.jint "255"))
      .ok ("\x7b " ++ red ++ ", " ++ green ++ ", " ++ blue ++ ", " ++
        redMax ++ ", " ++ greenMax ++ ", " ++ blueMax ++ " \x7d")
    | _ => .error .attributeError)
  | .jstr "int" =>
    (match value with
    | .jint r => .ok ("\x7b " ++ r ++ ", INT32_MIN, INT32_MAX, 1 \x7d")
    | .jobj fs =>
      let ival := pyStr ((fs.lookup "val").getD (.jint "0"))
      let istep := pyStr ((fs.lookup "step").getD (.jint "1"))
      let imin := pyStr ((fs.lookup "min").getD (.jstr "INT32_MIN"))
      let imax := pyStr ((fs.lookup "max").getD (.jstr "INT32_MAX"))
      .ok ("\x7b " ++ ival ++ ", " ++ imin ++ ", " ++ imax ++ ", " ++ istep ++ " \x7d")
    | _ => .error .attributeError)
  | .jstr "float" =>
    (match value with
    | .jint r => .ok ("\x7b " ++ r ++ ", -DBL_MAX, DBL_MAX, DBL_MIN \x7d")
    | .jfloat r => .ok ("\x7b " ++ r ++ ", -DBL_MAX, DBL_MAX, DBL_MIN \x7d")
    | .jobj fs =>
      let ival := pyStr ((fs.lookup "val").getD (.jint "0"))
      let istep := pyStr ((fs.lookup "step").getD (.jstr "DBL_MIN"))
      let imin := pyStr ((fs.lookup "min").getD (.jstr "-DBL_MAX"))
      let imax := pyStr ((fs.lookup "max").getD (.jstr "DBL_MAX"))
      .ok ("\x7b " ++ ival ++ ", " ++ imin ++ ", " ++ imax ++ ", " ++ istep ++ " \x7d")
    | _ => .error .attributeError)
  | _ =>
    .ok (pyStr value)

/-- Helper for uses_float: does some member have data_type equal to the
string float (a missing data_type raises KeyError first). -/
def membersHasFloat : List JVal → Except PyErr Bool
  | [] => .ok false
  | o :: rest => do
    let dt ← getItem o "data_type"
    match dt with
    | .jstr s => if s = "float" then .ok true else membersHasFloat rest
    | _ => membersHasFloat rest

/-- The loop of uses_float over a types list: return the first non-empty
header reported by the recursive call (passed in explicitly so that the
recursion stays structural in the fuel). -/
def usesFloatList (f : JVal → Except PyErr String) : List JVal → Except PyErr String
  | [] => .ok ""
  | t :: rest => do
    let h ← f t
    if h ≠ "" then .ok h else usesFloatList f rest

/-- uses_float: descend into the types list when present, otherwise report
float.h when some option member is float-typed.  The recursion over the
decoded value is bounded by explicit fuel, standing for the Python
recursion limit. -/
def usesFloatCore : Nat → JVal → Except PyErr String
  | 0, _ => .error .recursionError
  | fuel + 1, data =>
    if pyIn "types" data then
      match data.get? "types" with
      | some ts =>
        match ts with
        | .jarr items => usesFloatList (usesFloatCore fuel) items
        | _ => .error .typeError
      | none => .error .typeError
    else
      match data.get? "options" with
      | some opts =>
        match opts.get? "members" with
        | some ms =>
          match ms with
          | .jarr items => do
            let b ← membersHasFloat items
            .ok (if b then "#include <float.h>\n" else "")
          | _ => .error .typeError
        | none => .ok ""
      | none => .ok ""

/-- uses_float at the recursion budget of the Python runtime. -/
def usesFloat (data : JVal) : Except PyErr String :=
  usesFloatCore 1000 data

/-!
## sol-flow-node-type-gen.py: header generation
-/

/-- generate_header_head: the fixed preamble; the template dict evaluates
the input, name_c and NAME_C entries (raising KeyError when absent) and
uses_float before formatting. -/
def generateHeaderHead (data : JVal) : Except PyErr String := do
  let input ← getItem data "input"
  let _nc ← getItem data "name_c"
  let _NC ← getItem data "NAME_C"
  let floatH ← usesFloat data
  .ok ("#pragma once\n/* this file was auto-generated from " ++ pyStr input ++
    " */\n#include <stdbool.h>\n#include <stdint.h>\n#include <sol-flow.h>\n" ++
    floatH ++ "\n\n#ifdef __cplusplus\nextern \"C\" \x7b\n#endif\n")

/-- generate_header_tail: the closing extern-C guard. -/
def generateHeaderTail (_data : JVal) : String :=
  "\n#ifdef __cplusplus\n\x7d\n#endif\n"

/-- The member lines of the options struct: for each member, its C type
from the mapping table (KeyError aborts), its name, and a doc comment
showing the repr of the default or the required marker.  A JSON null
default counts as absent here (value is not None fails). -/
def memberStructLines : List JVal → Except PyErr String
  | [] => .ok ""
  | o :: rest => do
    let doc0 ← asStr ((o.get? "description").getD (.jstr ""))
    let defaultOpt : Option JVal :=
      match o.get? "default" with
      | some .jnull => none
      | x => x
    let doc :=
      match defaultOpt with
      | some dv => doc0 ++ " (default: " ++ pyRepr dv ++ ")"
      | none => doc0 ++ " (required)"
    let dt ← getItem o "data_type"
    let dts ← asStr dt
    let typeC ← dataTypeToC dts
    let nm ← getItem o "name"
    let restLines ← memberStructLines rest
    .ok ("    " ++ typeC ++ " " ++ pyStr nm ++ "; /**< " ++ doc ++ " */\n" ++
      restLines)

/-- The OPTIONS_DEFAULTS member initializer lines: only members that carry
a default key contribute, with the value rendered by value_to_c. -/
def memberDefaultLines : List JVal → Except PyErr String
  | [] => .ok ""
  | o :: rest => do
    let line ←
      match o.get? "default" with
      | some dv => do
        let nm ← getItem o "name"
        let dt ← getItem o "data_type"
        let v ← valueToC dv dt
        pure ("    ." ++ pyStr nm ++ " = " ++ v ++ ", \\\n")
      | none => pure ""
    let restLines ← memberDefaultLines rest
    .ok (line ++ restLines)

/-- The port-index macro pairs of one ports list of generate_header_entry:
position i carries the running offset; an array port of size n emits n
extra element macros at consecutive indices and advances the offset by
n - 1 through the loop-else clause. -/
def portMacroPairs (label tag : String) :
    List JVal → Nat → Nat → Except PyErr (List (String × Nat))
  | [], _, _ => .ok []
  | o :: rest, i, off => do
    let nm ← getItem o "name" >>= asStr
    let ps ← portNameAndSize nm
    let pname := ps.1
    let psize := ps.2
    let baseName := label ++ "__" ++ tag ++ "__" ++ pyUpper (cClean pname)
    let elems := (List.range psize).map
      (fun k => (baseName ++ "_" ++ toString k, i + off + k))
    let later ← portMacroPairs label tag rest (i + 1)
      (if psize > 0 then off + psize - 1 else off)
    .ok ((baseName, i + off) :: elems ++ later)

/-- Rendering of one port macro definition line. -/
def defineLine (p : String × Nat) : String :=
  "#define " ++ p.1 ++ " (" ++ toString p.2 ++ ")\n"

/-- generate_header_entry: the DEFINED marker and node-type declaration,
the options struct with its API version and member fields, the
OPTIONS_DEFAULTS helper, and the input/output port index macros. -/
def generateHeaderEntry (data : JVal) : Except PyErr String := do
  let _input ← getItem data "input"
  let NC ← getItem data "NAME_C"
  let part1 := "\n#define " ++ pyStr NC ++ "_DEFINED 1\nextern const struct sol_flow_node_type *" ++
    pyStr NC ++ ";\n"
  let optionsPart ←
    match data.get? "options" with
    | some options => do
      let nameC ← getItem data "name_c"
      let _NC2 ← getItem data "NAME_C"
      let version ← getItem options "version"
      let vr ← asIntRender version
      let structHead := "\nstruct " ++ pyStr nameC ++
        "_options \x7b\n    struct sol_flow_node_options base;\n#define " ++
        pyStr NC ++ "_OPTIONS_API_VERSION (" ++ vr ++ ")\n"
      let memberPart ←
        match options.get? "members" with
        | some ms => do
          let items ← asArr ms
          memberStructLines items
        | none => pure ""
      let defaultsHead := "\n#define " ++ pyStr NC ++
        "_OPTIONS_DEFAULTS(...) \x7b \\\n    .base = \x7b \\\n        .api_version = SOL_FLOW_NODE_OPTIONS_API_VERSION, \\\n        .sub_api = " ++
        pyStr NC ++ "_OPTIONS_API_VERSION \\\n    \x7d, \\\n"
      let defaultsPart ←
        match options.get? "members" with
        | some ms => do
          let items ← asArr ms
          memberDefaultLines items
        | none => pure ""
      pure (structHead ++ memberPart ++ "\x7d;\n" ++ defaultsHead ++
        defaultsPart ++ "    __VA_ARGS__ \\\n\x7d")
    | none => pure ""
  let inPart ←
    match data.get? "in_ports" with
    | some ip => do
      let items ← asArr ip
      let pairs ← portMacroPairs (pyStr NC) "IN" items 0 0
      pure ("\n/* Input Ports */\n" ++ strConcat (pairs.map defineLine))
    | none => pure ""
  let outPart ←
    match data.get? "out_ports" with
    | some op => do
      let items ← asArr op
      let pairs ← portMacroPairs (pyStr NC) "OUT" items 0 0
      pure ("\n/* Output Ports */\n" ++ strConcat (pairs.map defineLine))
    | none => pure ""
  .ok (part1 ++ optionsPart ++ inPart ++ outPart)

/-!
## sol-flow-node-type-gen.py: code generation
-/

/-- generate_code_head. -/
def generateCodeHead (data : JVal) : Except PyErr String := do
  let input ← getItem data "input"
  let header ← getItem data "header"
  let _NC ← getItem data "NAME_C"
  let floatH ← usesFloat data
  .ok ("/* this file was auto-generated from " ++ pyStr input ++
    ".\n * include it from your implementation after your methods and\n * types are defined.\n */\n#ifndef " ++
    pyStr _NC ++ "_DEFINED\n#include \"" ++ pyStr header ++
    "\"\n#endif\n#include <sol-flow-packet.h>\n#include <sol-macros.h>\n#include <errno.h>\n" ++
    floatH ++ "\n")

/-- The per-type address lines of the types table in generate_code_tail. -/
def codeTailTypeLines : List JVal → Except PyErr String
  | [] => .ok ""
  | t :: rest => do
    let nc ← getItem t "NAME_C"
    let r ← codeTailTypeLines rest
    .ok ("            &" ++ pyStr nc ++ ",\n" ++ r)

/-- generate_code_tail: the foreach-node-type walker over the types table. -/
def generateCodeTail (data : JVal) : Except PyErr String := do
  let nameV ← getItem data "name"
  let nameS ← asStr nameV
  let nm := cClean (pyLower nameS)
  let ts ← getItem data "types" >>= asArr
  let typeLines ← codeTailTypeLines ts
  .ok ("\n\n#ifdef SOL_FLOW_NODE_TYPE_DESCRIPTION_ENABLED\n\n#ifdef SOL_FLOW_NODE_TYPE_MODULE_EXTERNAL\n\nvoid sol_flow_foreach_module_node_type(bool (*cb)(void *data, const struct sol_flow_node_type *type), const void *data);\n\nSOL_API void\nsol_flow_foreach_module_node_type(bool (*cb)(void *data, const struct sol_flow_node_type *type), const void *data)\n\n#else\n\nconst struct sol_flow_node_type *sol_flow_foreach_builtin_node_type_" ++
    nm ++ "(bool (*cb)(void *data, const struct sol_flow_node_type *type), const void *data);\n\nSOL_API const struct sol_flow_node_type *\nsol_flow_foreach_builtin_node_type_" ++
    nm ++ "(bool (*cb)(void *data, const struct sol_flow_node_type *type), const void *data)\n\n#endif // SOL_FLOW_NODE_TYPE_MODULE_EXTERNAL\n\x7b\n    static const struct sol_flow_node_type **types[] = \x7b\n" ++
    typeLines ++
    "            NULL\n    \x7d, ***itr;\n\n    if (!cb)\n#ifdef SOL_FLOW_NODE_TYPE_MODULE_EXTERNAL\n        return;\n#else\n        return NULL;\n#endif\n\n    for (itr = types; *itr != NULL; itr++) \x7b\n        const struct sol_flow_node_type **type = &**itr;\n        if ((*type)->init_type)\n            (*type)->init_type();\n        if (!cb((void *)data, *type))\n#ifdef SOL_FLOW_NODE_TYPE_MODULE_EXTERNAL\n            break;\n#else\n            return *type;\n#endif\n    \x7d\n#ifndef SOL_FLOW_NODE_TYPE_MODULE_EXTERNAL\n    return NULL;\n#endif\n\x7d\n#else\n#define sol_flow_foreach_module_node_type(cb, data)\n#endif // SOL_FLOW_NODE_TYPE_DESCRIPTION_ENABLED\n")

/-- Accumulator of the port loops of generate_code_entry: the emitted port
struct text, the per-port C identifiers, the running port count, the body
of the get_port dispatcher and the collected data types. -/
structure PortAcc where
  out : String
  names : List String
  count : Nat
  getPort : String
  dataTypes : List JVal

/-- The in_ports loop of generate_code_entry: ports carrying a type key
are skipped; an array port of size n occupies n slots of the dispatcher. -/
def inPortsLoop (nameC : String) : List JVal → PortAcc → Except PyErr PortAcc
  | [], acc => .ok acc
  | o :: rest, acc =>
    if pyIn "type" o then inPortsLoop nameC rest acc
    else do
      let nm ← getItem o "name" >>= asStr
      let ps ← portNameAndSize nm
      let typeC := nameC ++ "__in__" ++ cClean ps.1
      let psize := if ps.2 = 0 then 1 else ps.2
      let count := acc.count + psize
      let getPort := acc.getPort ++ "    if (port < " ++ toString count ++
        ")\n        return &" ++ typeC ++ ";\n"
      let dt := (o.get? "data_type").getD (.jstr "empty")
      let pm := (o.get? "methods").getD (.jobj [])
      let connect := pyStr ((pm.get? "connect").getD (.jstr "NULL"))
      let disconnect := pyStr ((pm.get? "disconnect").getD (.jstr "NULL"))
      let process := pyStr ((pm.get? "process").getD (.jstr "NULL"))
      let chunk := "\nstatic struct sol_flow_port_type_in " ++ typeC ++
        " = \x7b\n    .api_version = SOL_FLOW_PORT_TYPE_IN_API_VERSION,\n    .process = " ++
        process ++ ",\n    .connect = " ++ connect ++ ",\n    .disconnect = " ++
        disconnect ++ ",\n\x7d;\n"
      inPortsLoop nameC rest
        ⟨acc.out ++ chunk, acc.names ++ [typeC], count, getPort,
          acc.dataTypes ++ [dt]⟩

/-- The out_ports loop of generate_code_entry. -/
def outPortsLoop (nameC : String) : List JVal → PortAcc → Except PyErr PortAcc
  | [], acc => .ok acc
  | o :: rest, acc =>
    if pyIn "type" o then outPortsLoop nameC rest acc
    else do
      let nm ← getItem o "name" >>= asStr
      let ps ← portNameAndSize nm
      let typeC := nameC ++ "__out__" ++ cClean ps.1
      let psize := if ps.2 = 0 then 1 else ps.2
      let count := acc.count + psize
      let getPort := acc.getPort ++ "    if (port < " ++ toString count ++
        ")\n        return &" ++ typeC ++ ";\n"
      let dt := (o.get? "data_type").getD (.jstr "empty")
      let pm := (o.get? "methods").getD (.jobj [])
      let connect := pyStr ((pm.get? "connect").getD (.jstr "NULL"))
      let disconnect := pyStr ((pm.get? "disconnect").getD (.jstr "NULL"))
      let flags := pyStr ((o.get? "flags").getD (.jstr "0"))
      let chunk := "\nstatic struct sol_flow_port_type_out " ++ typeC ++
        " = \x7b\n    .api_version = SOL_FLOW_PORT_TYPE_OUT_API_VERSION,\n    .flags = " ++
        flags ++ ",\n    .connect = " ++ connect ++ ",\n    .disconnect = " ++
        disconnect ++ ",\n\x7d;\n"
      outPortsLoop nameC rest
        ⟨acc.out ++ chunk, acc.names ++ [typeC], count, getPort,
          acc.dataTypes ++ [dt]⟩

/-- The packet-type assignment lines of get_ports_counts. -/
def packetTypeLines (pairs : List (String × JVal)) : Except PyErr String :=
  match pairs with
  | [] => .ok ""
  | (port, dt) :: rest => do
    let pt ← packetTypeFromDataType dt
    let r ← packetTypeLines rest
    .ok ("        " ++ port ++ ".packet_type = " ++ pt ++ ";\n" ++ r)

/-- The strdup lines of the generated new_options function: one per
string-typed member. -/
def strdupLines : List JVal → Except PyErr String
  | [] => .ok ""
  | m :: rest => do
    let dt ← getItem m "data_type"
    let line ←
      match dt with
      | .jstr "string" => do
        let nm ← getItem m "name"
        pure ("\n    if (opts->" ++ pyStr nm ++ ")\n        opts->" ++ pyStr nm ++
          " = strdup(opts->" ++ pyStr nm ++ ");\n")
      | _ => pure ""
    let r ← strdupLines rest
    .ok (line ++ r)

/-- The free lines of the generated free_options function: one per
string-typed member. -/
def freeLines : List JVal → Except PyErr String
  | [] => .ok ""
  | m :: rest => do
    let dt ← getItem m "data_type"
    let line ←
      match dt with
      | .jstr "string" => do
        let nm ← getItem m "name"
        pure ("\n    free((void *)opts->" ++ pyStr nm ++ ");\n")
      | _ => pure ""
    let r ← freeLines rest
    .ok (line ++ r)

/-- The port description entries of the description struct: each port at
base_port_idx equal to the running base, which advances by the array size
(or one for scalar ports).  The indent string and the description
rendering differ between the in and out lists in the script. -/
def portDescEntries (firstIndent : String) (descRender : Option JVal → Except PyErr String) :
    List JVal → Nat → Except PyErr String
  | [], _ => .ok ""
  | o :: rest, base => do
    let nm ← getItem o "name" >>= asStr
    let ps ← portNameAndSize nm
    let nameC := strToC ps.1
    let desc ← descRender (o.get? "description")
    let dt ← strToCOrNull (o.get? "data_type")
    let req := boolToC (pyTruthy ((o.get? "required").getD (.jbool false)))
    let entry := firstIndent ++ "&((const struct sol_flow_port_description)\x7b\n            .name = " ++
      nameC ++ ",\n            .description=" ++ desc ++ ",\n            .data_type=" ++
      dt ++ ",\n            .array_size=" ++ toString ps.2 ++ ",\n            .base_port_idx=" ++
      toString base ++ ",\n            .required=" ++ req ++ ",\n        \x7d),\n"
    let r ← portDescEntries firstIndent descRender rest
      (base + (if ps.2 = 0 then 1 else ps.2))
    .ok (entry ++ r)

/-- The member description entries of the options description: the text
plus the flag telling whether some member lacks a default. -/
def memberOptionEntries (nameC : String) :
    List JVal → Except PyErr (String × Bool)
  | [] => .ok ("", false)
  | o :: rest => do
    let nm ← getItem o "name"
    let desc ← strToCOrNull (o.get? "description")
    let dtV ← getItem o "data_type"
    let dts ← asStr dtV
    let hasDefault := pyIn "default" o
    let req := if hasDefault then "false" else "true"
    let typeC ← dataTypeToC dts
    let head := "        \x7b\n            .name=\"" ++ pyStr nm ++
      "\",\n            .description=" ++ desc ++ ",\n            .data_type=" ++
      strToC dts ++ ",\n            .required=" ++ req ++
      ",\n            .offset=offsetof(struct " ++ nameC ++ "_options, " ++
      pyStr nm ++ "),\n            .size=sizeof(" ++ typeC ++ "),\n"
    let defPart ←
      if hasDefault then do
        let dv := (o.get? "default").getD .jnull
        let v ← valueToC dv dtV
        pure ("            .defvalue = \x7b\n                ." ++
          dataTypeToDefaultMember dts ++ "=" ++ v ++ ",\n            \x7d,\n")
      else pure ""
    let r ← memberOptionEntries nameC rest
    .ok (head ++ defPart ++ "        \x7d,\n" ++ r.1,
      (!hasDefault) || r.2)

/-- The loop of rec_extra over the items of a dict value, with the
recursive emitter passed in explicitly so that the recursion stays
structural in the fuel. -/
def recExtraItems (f : String → JVal → Except PyErr String) :
    List (String × JVal) → Except PyErr String
  | [] => .ok ""
  | (k, v) :: rest => do
    let s ← f k v
    let r ← recExtraItems f rest
    .ok (s ++ r)

/-- rec_extra of generate_code_entry: recursive emission of the
extra_methods initializers, with fuel for the Python recursion limit.  A
value that is neither a string nor a dict crashes on .items. -/
def recExtra : Nat → String → JVal → Nat → Except PyErr String
  | 0, _, _, _ => .error .recursionError
  | fuel + 1, k, v, indent =>
    let ind := indent + 1
    let pre := strConcat (List.replicate ind "    ") ++ "." ++ k ++ " = "
    match v with
    | .jstr s => .ok (pre ++ s ++ ",\n")
    | .jobj fs => do
      let inner ← recExtraItems (fun k2 v2 => recExtra fuel k2 v2 ind) fs
      .ok (pre ++ "\x7b\n" ++ inner ++ strConcat (List.replicate ind "    ") ++
        "\x7d" ++ ",\n")
    | _ => .error .attributeError

/-- generate_code_entry: port structs and dispatchers, ports-counts and
init-type functions, options defaults plus generated new and free options
functions, the node-type description struct and the node-type definition
itself. -/
def generateCodeEntry (data : JVal) : Except PyErr String := do
  let methods := (data.get? "methods").getD (.jobj [])
  let nameC ← getItem data "name_c" >>= asStr
  let inAcc ←
    match data.get? "in_ports" with
    | some ip => do
      let items ← asArr ip
      inPortsLoop nameC items ⟨"", [], 0, "", []⟩
    | none => pure ⟨"", [], 0, "", []⟩
  let outAcc ←
    match data.get? "out_ports" with
    | some op => do
      let items ← asArr op
      outPortsLoop nameC items ⟨"", [], 0, "", []⟩
    | none => pure ⟨"", [], 0, "", []⟩
  let getPortIn :=
    if !inAcc.names.isEmpty then
      "static const struct sol_flow_port_type_in *\n" ++ nameC ++
        "_get_port_in_internal(const struct sol_flow_node_type *type, uint16_t port)\n\x7b\n" ++
        inAcc.getPort ++
        "\n    return NULL; /* shouldn\x27t happen, but compiler complains otherwise */\n\x7d\n"
    else ""
  let getPortOut :=
    if !outAcc.names.isEmpty then
      "static const struct sol_flow_port_type_out *\n" ++ nameC ++
        "_get_port_out_internal(const struct sol_flow_node_type *type, uint16_t port)\n\x7b\n" ++
        outAcc.getPort ++
        "\n    return NULL; /* shouldn\x27t happen, but compiler complains otherwise */\n\x7d\n"
    else ""
  let countsHead := "static void\n" ++ nameC ++
    "_get_ports_counts_internal(const struct sol_flow_node_type *type, uint16_t *ports_in_count, uint16_t *ports_out_count)\n\x7b\n"
  let anyPorts := !inAcc.names.isEmpty || !outAcc.names.isEmpty
  let packetOpen ←
    if anyPorts then do
      let firstPort :=
        match inAcc.names.head? with
        | some p => p
        | none => (outAcc.names.head?).getD ""
      pure ("    if (" ++ firstPort ++ ".packet_type == NULL) \x7b\n")
    else pure ""
  let inAssigns ← packetTypeLines (inAcc.names.zip inAcc.dataTypes)
  let outAssigns ← packetTypeLines (outAcc.names.zip outAcc.dataTypes)
  let packetClose := if anyPorts then "    \x7d\n" else ""
  let countsTail := "    if (ports_in_count)\n        *ports_in_count = " ++
    toString inAcc.count ++ ";\n    if (ports_out_count)\n        *ports_out_count = " ++
    toString outAcc.count ++ ";\n\x7d\n"
  let initTypeBody :=
    if pyIn "init_type" methods then
      "    " ++ pyStr ((methods.get? "init_type").getD .jnull) ++ "();\n"
    else ""
  let initTypePart := "\nstatic void\n" ++ nameC ++
    "_init_type_internal(void)\n\x7b\n" ++ initTypeBody ++ "\x7d\n"
  let hasOptions := pyIn "options" data
  let optionsDefaultsPart ←
    if hasOptions then do
      let NC ← getItem data "NAME_C"
      pure ("\nstatic const struct " ++ nameC ++ "_options " ++ nameC ++
        "_options_defaults = " ++ pyStr NC ++ "_OPTIONS_DEFAULTS();\n")
    else pure ""
  let newFreeOpts : Option JVal × Option JVal ←
    if hasOptions then do
      let opts ← getItem data "options"
      match opts.get? "methods" with
      | some ms => pure ((ms.get? "new"), (ms.get? "free"))
      | none => pure (none, none)
    else pure (some (.jstr "NULL"), some (.jstr "NULL"))
  let newOptsName :=
    match newFreeOpts.1 with
    | some v => pyStr v
    | none => nameC ++ "_new_options_internal"
  let freeOptsName :=
    match newFreeOpts.2 with
    | some v => pyStr v
    | none => nameC ++ "_free_options_internal"
  let newOptsPart ←
    match newFreeOpts.1 with
    | some _ => pure ""
    | none => do
      let NC ← getItem data "NAME_C"
      let opts ← getItem data "options"
      let members ← asArr ((opts.get? "members").getD (.jarr []))
      let sd ← strdupLines members
      pure ("\nstatic struct sol_flow_node_options *\n" ++ newOptsName ++
        "(const struct sol_flow_node_options *copy_from)\n\x7b\n    struct " ++
        nameC ++ "_options *opts;\n    const struct " ++ nameC ++
        "_options *from;\n\n    if (!copy_from) from = &" ++ nameC ++
        "_options_defaults;\n    else from = (struct " ++ nameC ++
        "_options *)copy_from;\n    if (from->base.sub_api != " ++ pyStr NC ++
        "_OPTIONS_API_VERSION) \x7b\n        errno = -EINVAL;\n        return NULL;\n    \x7d\n\n    opts = malloc(sizeof(*opts));\n    if (!opts) \x7b\n        errno = -ENOMEM;\n        return NULL;\n    \x7d\n    *opts = *from;\n" ++
        sd ++ "\n    return &opts->base;\n\x7d\n")
  let freeOptsPart ←
    match newFreeOpts.2 with
    | some _ => pure ""
    | none => do
      let opts ← getItem data "options"
      let members ← asArr ((opts.get? "members").getD (.jarr []))
      let fl ← freeLines members
      pure ("\nstatic void\n" ++ freeOptsName ++
        "(struct sol_flow_node_options *options)\n\x7b\n    struct " ++ nameC ++
        "_options *opts;\n    if (!options) return;\n    opts = (struct " ++
        nameC ++ "_options *)options;\n" ++ fl ++
        "\n    free(opts);\n\x7d\n")
  let nameStr ← getItem data "name" >>= asStr
  let category ← getItem data "category" >>= asStr
  let NCv ← getItem data "NAME_C"
  let symbol ← asStr NCv
  let author ← strToCOrNull (data.get? "author")
  let descr ← strToCOrNull (data.get? "description")
  let url ← strToCOrNull (data.get? "url")
  let license ← strToCOrNull (data.get? "license")
  let versionS ← strToCOrNull (data.get? "version")
  let descHead := "\n#ifdef SOL_FLOW_NODE_TYPE_DESCRIPTION_ENABLED\nstatic const struct sol_flow_node_type_description " ++
    nameC ++ "_description = \x7b\n    .api_version = SOL_FLOW_NODE_TYPE_DESCRIPTION_API_VERSION,\n    .name = " ++
    strToC nameStr ++ ",\n    .category = " ++ strToC category ++
    ",\n    .symbol = " ++ strToC symbol ++ ",\n    .options_symbol = \"" ++
    nameC ++ "_options\",\n    .description = " ++ descr ++ ",\n    .author = " ++
    author ++ ",\n    .url = " ++ url ++ ",\n    .license = " ++ license ++
    ",\n    .version = " ++ versionS ++ ",\n"
  let portsInDesc ←
    match data.get? "in_ports" with
    | some ip => do
      let items ← asArr ip
      let entries ← portDescEntries "            " strToCReq items 0
      pure ("    .ports_in = (const struct sol_flow_port_description * const [])\x7b\n" ++
        entries ++ "        NULL\n    \x7d,\n")
    | none => pure ""
  let portsOutDesc ←
    match data.get? "out_ports" with
    | some op => do
      let items ← asArr op
      let entries ← portDescEntries "        " strToCOrNull items 0
      pure ("    .ports_out = (const struct sol_flow_port_description * const [])\x7b\n" ++
        entries ++ "        NULL\n    \x7d,\n")
    | none => pure ""
  let optionsDesc ←
    if hasOptions then do
      let NC ← getItem data "NAME_C"
      let opts ← getItem data "options"
      let memberPart ←
        match opts.get? "members" with
        | some ms => do
          let items ← asArr ms
          memberOptionEntries nameC items
        | none => pure ("", false)
      let memberOptions := memberPart.1 ++ "            \x7b\x7d,\n"
      pure ("    .options = &((const struct sol_flow_node_options_description)\x7b\n        .data_size = sizeof(struct " ++
        nameC ++ "_options),\n        .sub_api = " ++ pyStr NC ++
        "_OPTIONS_API_VERSION,\n        .required = " ++ boolToC memberPart.2 ++
        ",\n        .members = (const struct sol_flow_node_options_member_description[])\x7b\n            " ++
        memberOptions ++ "\n        \x7d,\n    \x7d),\n")
    else pure ""
  let nodeTypeInfo ←
    match data.get? "node_type" with
    | some nt => do
      let ntype ← getItem nt "data_type"
      let accs ← getItem nt "access" >>= asArr
      let accStrs := accs.map pyStr
      let opens := strConcat (accStrs.map (fun a => "." ++ a ++ " = \x7b"))
      let closes := strConcat (accStrs.map (fun _ => "\x7d")) ++ ","
      let access := strConcat (accStrs.map (fun a => "." ++ a))
      pure (pyStr ntype, opens, closes, access)
    | none => pure ("struct sol_flow_node_type", "", "", "")
  let dataSize ←
    match data.get? "private_data_type" with
    | some v => do
      let s ← asStr v
      pure ("sizeof(struct " ++ s ++ ")")
    | none => pure "0"
  let openM := pyStr ((methods.get? "open").getD (.jstr "NULL"))
  let closeM := pyStr ((methods.get? "close").getD (.jstr "NULL"))
  let structHead := "\x7d;\n#endif\n\nstatic const " ++ nodeTypeInfo.1 ++ " " ++
    nameC ++ " = \x7b" ++ nodeTypeInfo.2.1 ++
    "\n    .api_version = SOL_FLOW_NODE_TYPE_API_VERSION,\n    .data_size = " ++
    dataSize ++ ",\n    .init_type = " ++ nameC ++
    "_init_type_internal,\n    .new_options = " ++ newOptsName ++
    ",\n    .free_options = " ++ freeOptsName ++ ",\n    .open = " ++ openM ++
    ",\n    .close = " ++ closeM ++ ",\n    .get_ports_counts = " ++ nameC ++
    "_get_ports_counts_internal,\n"
  let getPortInLine :=
    if !inAcc.names.isEmpty then
      "    .get_port_in = " ++ nameC ++ "_get_port_in_internal,\n"
    else ""
  let getPortOutLine :=
    if !outAcc.names.isEmpty then
      "    .get_port_out = " ++ nameC ++ "_get_port_out_internal,\n"
    else ""
  let descRef := "#ifdef SOL_FLOW_NODE_TYPE_DESCRIPTION_ENABLED\n    .description=&" ++
    nameC ++ "_description,\n#endif\n" ++ nodeTypeInfo.2.2.1 ++ "\n"
  let extraPart ←
    match data.get? "node_type" with
    | some nt =>
      match nt.get? "extra_methods" with
      | some em =>
        (match em with
        | .jobj fs => recExtraItems (fun k2 v2 => recExtra 1000 k2 v2 0) fs
        | _ => .error .attributeError)
      | none => pure ""
    | none => pure ""
  let finalPart := "\x7d;\n\nSOL_API const struct sol_flow_node_type *" ++
    pyStr NCv ++ " = &" ++ nameC ++ nodeTypeInfo.2.2.2 ++ ";\n"
  .ok (inAcc.out ++ outAcc.out ++ getPortIn ++ getPortOut ++ countsHead ++
    packetOpen ++ inAssigns ++ outAssigns ++ packetClose ++ countsTail ++
    initTypePart ++ optionsDefaultsPart ++ newOptsPart ++ freeOptsPart ++
    descHead ++ portsInDesc ++ portsOutDesc ++ optionsDesc ++ structHead ++
    getPortInLine ++ getPortOutLine ++ descRef ++ extraPart ++ finalPart)

/-!
## sol-flow-node-type-gen.py: driver
-/

/-- The output and input file names the generator main receives. -/
structure GenNames where
  inputName : String
  headerName : String
  codeName : String
deriving Repr

/-- The tail of load_json after validation: derive name_c, NAME_C and
prefix_c from the name field and the --prefix argument (an absent or
empty prefix contributes nothing). -/
def loadJsonGen (data : JVal) (pfxOpt : Option String) : Except PyErr JVal := do
  let pfxC :=
    match pfxOpt with
    | some p => if p ≠ "" then cClean p else ""
    | none => ""
  let nameV ← getItem data "name"
  let nameS ← asStr nameV
  let nameC0 := cClean (pyLower nameS)
  let nameC := if pfxC ≠ "" then pfxC ++ "_" ++ nameC0 else nameC0
  let data := data.set "name_c" (.jstr nameC)
  let data := data.set "NAME_C" (.jstr (pyUpper nameC))
  let data := data.set "prefix_c" (.jstr pfxC)
  .ok data

/-- The per-type loop of the generator main: each type dict is given the
file names, a name_c built by unconditionally joining prefix_c with an
underscore, and its upper-case form, then both entries are generated.
Returns the header entries, the code entries and the mutated type dicts
(the loop mutates the list elements in place, which generate_code_tail
later observes). -/
def genTypesLoop (headerName codeName inputName pfxC : String) :
    List JVal → Except PyErr (String × String × List JVal)
  | [] => .ok ("", "", [])
  | t :: rest => do
    let t := t.set "header" (.jstr headerName)
    let t := t.set "source" (.jstr codeName)
    let t := t.set "input" (.jstr inputName)
    let tname ← getItem t "name" >>= asStr
    let nameC := pfxC ++ "_" ++ cClean (pyLower tname)
    let t := t.set "name_c" (.jstr nameC)
    let t := t.set "NAME_C" (.jstr (pyUpper nameC))
    let t := t.set "prefix_c" (.jstr pfxC)
    let h ← generateHeaderEntry t
    let c ← generateCodeEntry t
    let r ← genTypesLoop headerName codeName inputName pfxC rest
    .ok (h ++ r.1, c ++ r.2.1, t :: r.2.2)

/-- The generation phase of the generator main (the second try block):
wrap a single-type description into a types list, record the file names,
generate heads, entries and tails, and return the two output texts. -/
def generatePhase (data0 : JVal) (nm : GenNames) : Except PyErr (String × String) := do
  let data ←
    if pyIn "types" data0 then pure data0
    else do
      let nameV ← getItem data0 "name"
      let nameCV ← getItem data0 "name_c"
      let NCV ← getItem data0 "NAME_C"
      let pfxV ← getItem data0 "prefix_c"
      pure (JVal.jobj [("types", .jarr [data0]), ("name", nameV),
        ("name_c", nameCV), ("NAME_C", NCV), ("prefix_c", pfxV)])
  let data := data.set "input" (.jstr nm.inputName)
  let data := data.set "header" (.jstr nm.headerName)
  let data := data.set "source" (.jstr nm.codeName)
  let _ntypes ← getItem data "types" >>= asArr
  let hh ← generateHeaderHead data
  let ch ← generateCodeHead data
  let pfxC ← getItem data "prefix_c" >>= asStr
  let ts ← getItem data "types" >>= asArr
  let entries ← genTypesLoop nm.headerName nm.codeName nm.inputName pfxC ts
  let data := data.set "types" (.jarr entries.2.2)
  let ht := generateHeaderTail data
  let ct ← generateCodeTail data
  .ok (hh ++ entries.1 ++ ht, ch ++ entries.2.1 ++ ct)

/-- The whole generator pipeline applied to an already-decoded and
already-validated description: the tail of load_json, then the generation
phase. -/
def genFromDecoded (data : JVal) (pfxOpt : Option String) (nm : GenNames) :
    Except PyErr (String × String) := do
  let d ← loadJsonGen data pfxOpt
  generatePhase d nm

/-!
## json_load_and_check and the two script mains

The json and jsonschema libraries are modelled as oracles: a decode
function standing for json.loads (returning either the decoded value or
a decode error carrying the message and the location that the fixed
errmsg formats of json/decoder.py expose and that the script regexes
re_single_loc and re_range_loc recover), a schema self-check result and a
list of validation errors (already sorted by schema path, as the script
sorts them).
-/

/-- The location information of a json.loads error message. -/
inductive DecodeLoc where
  | single (line col : Nat)
  | multi (lineStart colStart lineEnd colEnd : Nat)
deriving Repr

/-- A json.loads failure: message and location. -/
structure DecodeErr where
  msg : String
  loc : DecodeLoc
deriving Repr

/-- The loop of show_file_context over the context line numbers: one
prefixed line per index, IndexError past the end of the file. -/
def ctxLinesLoop (lines : List String) (filename : String) (lf : Nat) :
    List Nat → Except PyErr (List String)
  | [] => .ok []
  | i :: rest =>
    match lines.get? i with
    | some ln => do
      let r ← ctxLinesLoop lines filename lf rest
      .ok ((filename ++ ":" ++ padZeros lf (i + 1) ++ ": " ++ ln ++ "\n") :: r)
    | none => .error .indexError

/-- show_file_context: the context lines before the error location, each
prefixed by file and zero-padded line number, then the caret line.  When
no format size is given it is derived from the error line number.
Indexing past the end of the file raises IndexError. -/
def showFileContext (lines : List String) (filename : String)
    (lineno colno ctxLines lfSize : Nat) : Except PyErr (List String) :=
  let lf := if lfSize < 1 then (toString lineno).length else lfSize
  let start := lineno - ctxLines
  match ctxLinesLoop lines filename lf (List.range' start (lineno - start)) with
  | .ok ctx =>
    .ok (ctx ++ [filename ++ ":" ++ padZeros lf lineno ++ ": " ++
      String.mk (List.replicate (colno - 1) '-') ++ "^\n"])
  | .error e => .error e

/-- show_json_load_exception: the stderr lines produced for a decode
failure.  In the single-location branch the script reads the character at
the error position before printing anything, so a location at the end of
input (such as any error at end of file) raises IndexError with nothing
printed; the ranged branch prints both start and end contexts. -/
def showJsonLoadException (e : DecodeErr) (contents filename : String)
    (ctxLines : Nat) : Except PyErr (List String) :=
  let lines := pySplitNl contents
  match e.loc with
  | .multi l1 c1 l2 c2 => do
    let colFmt := (toString (max c1 c2)).length
    let lineFmt := (toString l2).length
    let ctx1 ← showFileContext lines filename l1 c1 ctxLines lineFmt
    let startLine := filename ++ ":" ++ padZeros lineFmt l1 ++ ":" ++
      padZeros colFmt c1 ++ ": error: start of " ++ e.msg ++ "\n"
    let ctx2 ← showFileContext lines filename l2 c2 ctxLines lineFmt
    let endLine := filename ++ ":" ++ padZeros lineFmt l2 ++ ":" ++
      padZeros colFmt c2 ++ ": error: end of " ++ e.msg ++ "\n"
    .ok (ctx1 ++ [startLine] ++ ctx2 ++ [endLine])
  | .single l c => do
    let location := filename ++ ":" ++ toString l ++ ":" ++ toString c
    let line ←
      match lines.get? (l - 1) with
      | some ln => Except.ok ln
      | none => Except.error PyErr.indexError
    let ch ←
      match line.toList.get? (c - 1) with
      | some cc => Except.ok cc
      | none => Except.error PyErr.indexError
    let ctx ← showFileContext lines filename l c ctxLines 0
    let errLine := location ++ ": error: " ++ e.msg ++ "\n"
    let hint :=
      if (e.msg = "Expecting property name enclosed in double quotes" ∧ ch = '\x7d') ∨
          (e.msg = "Expecting value" ∧ ch = ']') then
        [location ++ ": error: maybe trailing \x27,\x27 is dangling prior to closing braces?\n"]
      else []
    .ok (ctx ++ [errLine] ++ hint)

/-- One component of a jsonschema error path: a string key or an integer
index carrying its decimal rendering. -/
inductive PathKey where
  | strKey (s : String)
  | idxKey (r : String)
deriving Repr, DecidableEq

/-- The last context entry of a compound jsonschema error: its message
and absolute path. -/
structure SchemaCtx where
  message : String
  abspath : List PathKey
deriving Repr, DecidableEq

/-- A jsonschema ValidationError or SchemaError as far as the script
inspects it: the top-level message and the (possibly empty) context list. -/
structure SchemaErr where
  message : String
  context : List SchemaCtx
deriving Repr, DecidableEq

/-- path_to_str: the json[...] rendering of an error path. -/
def pathToStr (path : List PathKey) : String :=
  "json" ++ strConcat (path.map (fun k =>
    "[" ++ (match k with
            | .strKey s => pyStrRepr s
            | .idxKey r => r) ++ "]"))

/-- show_schema_exception: an error without context prints a single line
prefixed by the file name; a compound error prints the object and schema
dump (which depends on jsonschema resolver state, here an opaque rendering
parameter) followed by the error line built from the last context entry.
No branch ever prints a line:column location. -/
def showSchemaException (renderDump : SchemaErr → List String)
    (filename : String) (ex : SchemaErr) : List String :=
  match ex.context.getLast? with
  | none => [filename ++ ": " ++ ex.message ++ "\n"]
  | some ctx =>
    renderDump ex ++
      [filename ++ ": error: " ++ pathToStr ctx.abspath ++ ": " ++ ctx.message ++ "\n"]

/-- The oracle for the json and jsonschema libraries. -/
structure JsonLib where
  decode : String → Except DecodeErr JVal
  checkSchemaErr : JVal → Option SchemaErr
  validationErrs : JVal → JVal → List SchemaErr

/-- The data and schema files given to a script run. -/
structure ValidateInput where
  dataName : String
  dataText : String
  schemaName : String
  schemaText : String
deriving Repr

/-- The exception classes the script mains distinguish: ValueError (json
decode failures), jsonschema validation and schema errors, or any other
Python exception (which the mains do not catch). -/
inductive ScriptErr where
  | valueError
  | validationError
  | schemaError
  | pyExc (e : PyErr)
deriving Repr

/-- json_load_and_check: decode the data file, decode the schema file,
self-check the schema, then collect and print all validation errors and
re-raise the last one.  Returns the printed stderr lines and either the
decoded data or the raised exception; a crash while printing supersedes
the pending error, and the lines printed before such a crash are not
tracked (Python would leave them followed by a traceback). -/
def jsonLoadAndCheck (lib : JsonLib) (renderDump : SchemaErr → List String)
    (vin : ValidateInput) (ctxLines : Nat) :
    List String × Except ScriptErr JVal :=
  match lib.decode vin.dataText with
  | .error e =>
    match showJsonLoadException e vin.dataText vin.dataName ctxLines with
    | .ok ls => (ls, .error .valueError)
    | .error pe => ([], .error (.pyExc pe))
  | .ok data =>
    match lib.decode vin.schemaText with
    | .error e =>
      match showJsonLoadException e vin.schemaText vin.schemaName ctxLines with
      | .ok ls => (ls, .error .valueError)
      | .error pe => ([], .error (.pyExc pe))
    | .ok schema =>
      match lib.checkSchemaErr schema with
      | some ex => (showSchemaException renderDump vin.schemaName ex, .error .schemaError)
      | none =>
        match lib.validationErrs data schema with
        | [] => ([], .ok data)
        | errs =>
          ((errs.map (showSchemaException renderDump vin.dataName)).flatten,
            .error .validationError)

/-- Exit behaviour of a script process: a sys.exit code, or an uncaught
Python exception (the interpreter then prints a traceback and exits
non-zero). -/
inductive ExitStatus where
  | code (n : Nat)
  | uncaught
deriving Repr, DecidableEq

/-- The main of sol-flow-node-type-validate.py: run json_load_and_check,
exit 1 on ValueError, ValidationError or SchemaError, and fall through to
exit 0 on success; other exceptions propagate. -/
def runValidate (lib : JsonLib) (renderDump : SchemaErr → List String)
    (vin : ValidateInput) (ctxLines : Nat) : List String × ExitStatus :=
  let r := jsonLoadAndCheck lib renderDump vin ctxLines
  match r.2 with
  | .ok _ => (r.1, .code 0)
  | .error .valueError => (r.1, .code 1)
  | .error .validationError => (r.1, .code 1)
  | .error .schemaError => (r.1, .code 1)
  | .error (.pyExc _) => (r.1, .uncaught)

/-- The output files of a generator run: the header and code files, absent
when deleted. -/
structure GenFS where
  header : Option String
  code : Option String
deriving Repr, DecidableEq

/-- The main of sol-flow-node-type-gen.py.  Argument parsing has already
created both output files; on any failure of loading (the caught error
classes exit 1, others re-raise) or of generation (the bare except
re-raises) both output files are unlinked first, so only a fully
successful run leaves files behind. -/
def runGen (lib : JsonLib) (renderDump : SchemaErr → List String)
    (vin : ValidateInput) (pfxOpt : Option String) (nm : GenNames) :
    List String × GenFS × ExitStatus :=
  let r := jsonLoadAndCheck lib renderDump vin 3
  match r.2 with
  | .error .valueError => (r.1, ⟨none, none⟩, .code 1)
  | .error .validationError => (r.1, ⟨none, none⟩, .code 1)
  | .error .schemaError => (r.1, ⟨none, none⟩, .code 1)
  | .error (.pyExc _) => (r.1, ⟨none, none⟩, .uncaught)
  | .ok decoded =>
    match loadJsonGen decoded pfxOpt with
    | .error _ => (r.1, ⟨none, none⟩, .uncaught)
    | .ok data =>
      match generatePhase data nm with
      | .error _ => (r.1, ⟨none, none⟩, .uncaught)
      | .ok hc => (r.1, ⟨some hc.1, some hc.2⟩, .code 0)

/-!
## suite.py

run_test spawns one thread per test, joins every thread in spawn order,
and only then calls print_log, which counts the stat dict.  The
interleaving of thread completions with the main thread is modelled as a
small transition system: threads are identified by their index in the
test list, the main thread spawns them in order, may only pass a join
once that thread has finished, and prints the summary from the stat
snapshot only after every join.
-/

/-- State of a run_test execution: how many threads were spawned so far,
how many joins the main thread has passed, which thread indices have
finished (most recent first, each paired with its success flag), and the
snapshot of finished threads at the time the summary was printed, if it
was. -/
structure SuiteState where
  spawned : Nat
  joined : Nat
  finished : List (Nat × Bool)
  printedLog : Option (List (Nat × Bool))
deriving Repr

/-- The initial state: nothing spawned, nothing finished, no summary. -/
def SuiteState.init : SuiteState := ⟨0, 0, [], none⟩

/-- One step of the run_test interleaving over n tests: the main thread
spawns the next thread; any spawned, unfinished thread finishes with some
success flag; the main thread passes the next join only when that thread
has finished; after all joins the main thread prints the summary from the
current stat contents. -/
inductive SuiteStep (n : Nat) : SuiteState → SuiteState → Prop
  | spawn (s : SuiteState) (h : s.spawned < n) :
      SuiteStep n s { s with spawned := s.spawned + 1 }
  | finish (s : SuiteState) (t : Nat) (b : Bool) (ht : t < s.spawned)
      (hnew : t ∉ s.finished.map Prod.fst) :
      SuiteStep n s { s with finished := (t, b) :: s.finished }
  | joinNext (s : SuiteState) (hs : s.spawned = n) (hj : s.joined < n)
      (hfin : s.joined ∈ s.finished.map Prod.fst) :
      SuiteStep n s { s with joined := s.joined + 1 }
  | printLog (s : SuiteState) (hs : s.spawned = n) (hj : s.joined = n)
      (hp : s.printedLog = none) :
      SuiteStep n s { s with printedLog := some s.finished }

/-- Reachability from the initial state. -/
def SuiteReachable (n : Nat) (s : SuiteState) : Prop :=
  Relation.ReflTransGen (SuiteStep n) SuiteState.init s

/-- The stat dict print_log counts: each finished thread wrote
stat[test] = success in completion order, later writes overwriting
earlier ones for a duplicated test name. -/
def suiteStat (tests : List String) (finished : List (Nat × Bool)) :
    List (String × Bool) :=
  finished.reverse.foldl
    (fun acc tb =>
      match tests.get? tb.1 with
      | some nm => tblSet acc nm tb.2
      | none => acc)
    []

/-- Keys of tblSet results: the new key is always present afterwards. -/
theorem tblSet_mem_self {α : Type} (l : List (String × α)) (k : String) (v : α) :
    k ∈ (tblSet l k v).map Prod.fst := by
  induction l with
  | nil => simp [tblSet]
  | cons hd tl ih =>
    obtain ⟨k0, v0⟩ := hd
    by_cases h : k0 = k
    · simp only [tblSet, if_pos h, List.map_cons, List.mem_cons]
      exact Or.inl h.symm
    · simp only [tblSet, if_neg h, List.map_cons, List.mem_cons]
      exact Or.inr ih

/-- Keys of tblSet results: old keys stay present. -/
theorem tblSet_mem_of_mem {α : Type} (l : List (String × α)) (k k' : String)
    (v : α) (h : k' ∈ l.map Prod.fst) :
    k' ∈ (tblSet l k v).map Prod.fst := by
  induction l with
  | nil => simp [tblSet] at h
  | cons hd tl ih =>
    obtain ⟨k0, v0⟩ := hd
    by_cases hk : k0 = k
    · simp only [tblSet, if_pos hk, List.map_cons, List.mem_cons] at h ⊢
      exact h
    · simp only [tblSet, if_neg hk, List.map_cons, List.mem_cons] at h ⊢
      cases h with
      | inl h => exact Or.inl h
      | inr h => exact Or.inr (ih h)

/-!
## Claim theorems
-/

/-- Reduction of an Except bind on a success value. -/
theorem exceptBind_ok {e a b : Type} (x : a) (f : a → Except e b) :
    (Except.ok x >>= f : Except e b) = f x := rfl

/-- Reduction of an Except bind on an error value. -/
theorem exceptBind_err {e a b : Type} (err : e) (f : a → Except e b) :
    (Except.error err >>= f : Except e b) = Except.error err := rfl

/-- Reduction of pure in the Except monad. -/
theorem exceptPure {e a : Type} (x : a) :
    (pure x : Except e a) = Except.ok x := rfl

/-- Boolean success test for a generator run. -/
def isOkE {ε α : Type} (r : Except ε α) : Bool :=
  match r with
  | .ok _ => true
  | .error _ => false

/-- A one-member description shaped like the generator sees it after the
driver has filled input/name_c/NAME_C, with the member typed t. -/
def oneMemberDesc (t : String) : JVal :=
  .jobj [("input", .jstr "x.json"), ("name_c", .jstr "n"), ("NAME_C", .jstr "N"),
    ("options", .jobj [("version", .jint "1"),
      ("members", .jarr [.jobj [("name", .jstr "opt"), ("data_type", .jstr t)]])])]

/-- C5: the C type of an option member comes from the fixed
data_type_to_c table (boolean to bool, byte to unsigned char, int to
struct sol_irange, float to struct sol_drange, rgb to struct sol_rgb,
string to const char *), and a member whose data_type lies outside the
table makes header generation fail with the KeyError of the lookup. -/
theorem c5_data_type_mapping :
    (dataTypeToC "boolean" = .ok "bool" ∧
     dataTypeToC "byte" = .ok "unsigned char" ∧
     dataTypeToC "int" = .ok "struct sol_irange" ∧
     dataTypeToC "float" = .ok "struct sol_drange" ∧
     dataTypeToC "rgb" = .ok "struct sol_rgb" ∧
     dataTypeToC "string" = .ok "const char *") ∧
    (∀ t : String,
      t ∉ ["boolean", "byte", "int", "float", "rgb", "string"] →
      dataTypeToC t = .error (.keyError t) ∧
      generateHeaderEntry (oneMemberDesc t) = .error (.keyError t)) := by
  constructor
  · exact ⟨rfl, rfl, rfl, rfl, rfl, rfl⟩
  · intro t ht
    simp only [List.mem_cons, List.mem_singleton, not_or] at ht
    obtain ⟨h1, h2, h3, h4, h5, h6, -⟩ := ht
    have b1 : (t == "boolean") = false := beq_eq_false_iff_ne.mpr h1
    have b2 : (t == "byte") = false := beq_eq_false_iff_ne.mpr h2
    have b3 : (t == "int") = false := beq_eq_false_iff_ne.mpr h3
    have b4 : (t == "float") = false := beq_eq_false_iff_ne.mpr h4
    have b5 : (t == "rgb") = false := beq_eq_false_iff_ne.mpr h5
    have b6 : (t == "string") = false := beq_eq_false_iff_ne.mpr h6
    have hlook : dataTypeToC t = .error (.keyError t) := by
      simp [dataTypeToC, dataTypeToCMap, List.lookup, b1, b2, b3, b4, b5, b6]
    refine ⟨hlook, ?_⟩
    have hmem : memberStructLines
        [.jobj [("name", .jstr "opt"), ("data_type", .jstr t)]] =
        .error (.keyError t) := by
      simp [memberStructLines, getItem, JVal.get?, asStr, hlook, List.lookup,
        exceptBind_ok, exceptBind_err, exceptPure]
    simp [generateHeaderEntry, oneMemberDesc, getItem, JVal.get?, asIntRender,
      asArr, List.lookup, hmem, exceptBind_ok, exceptBind_err, exceptPure]

/-- C5 witness: the table rejects a concrete unknown type and generation
fails on it. -/
theorem c5_data_type_mapping_witness :
    dataTypeToC "quaternion" = .error (.keyError "quaternion") ∧
    generateHeaderEntry (oneMemberDesc "quaternion") =
      .error (.keyError "quaternion") :=
  c5_data_type_mapping.2 "quaternion" (by decide)

/-- C10: value_to_c widens scalar option defaults.  A bare int default v
becomes the initializer with v, INT32_MIN, INT32_MAX, 1 in the order
value, min, max, step; in an object default the absent val, min, max and
step fields default to 0, INT32_MIN, INT32_MAX and 1 respectively (shown
both with all four absent and with only val given); a bare numeric float
default becomes v, -DBL_MAX, DBL_MAX, DBL_MIN. -/
theorem c10_value_to_c_widening :
    (∀ r : String, valueToC (.jint r) (.jstr "int") =
      .ok ("\x7b " ++ r ++ ", INT32_MIN, INT32_MAX, 1 \x7d")) ∧
    (∀ fs : List (String × JVal),
      fs.lookup "val" = none → fs.lookup "min" = none →
      fs.lookup "max" = none → fs.lookup "step" = none →
      valueToC (.jobj fs) (.jstr "int") =
        .ok "\x7b 0, INT32_MIN, INT32_MAX, 1 \x7d") ∧
    (∀ (fs : List (String × JVal)) (r : String),
      fs.lookup "val" = some (.jint r) → fs.lookup "min" = none →
      fs.lookup "max" = none → fs.lookup "step" = none →
      valueToC (.jobj fs) (.jstr "int") =
        .ok ("\x7b " ++ r ++ ", INT32_MIN, INT32_MAX, 1 \x7d")) ∧
    (∀ r : String, valueToC (.jfloat r) (.jstr "float") =
      .ok ("\x7b " ++ r ++ ", -DBL_MAX, DBL_MAX, DBL_MIN \x7d")) ∧
    (∀ r : String, valueToC (.jint r) (.jstr "float") =
      .ok ("\x7b " ++ r ++ ", -DBL_MAX, DBL_MAX, DBL_MIN \x7d")) := by
  refine ⟨fun r => rfl, ?_, ?_, fun r => rfl, fun r => rfl⟩
  · intro fs hv hmin hmax hstep
    simp [valueToC, hv, hmin, hmax, hstep, pyStr, pyRepr]
  · intro fs r hv hmin hmax hstep
    simp [valueToC, hv, hmin, hmax, hstep, pyStr, pyRepr,
      String.append_assoc]

/-- C10 witness: concrete defaults evaluate as the widening states. -/
theorem c10_value_to_c_widening_witness :
    valueToC (.jint "42") (.jstr "int") =
      .ok "\x7b 42, INT32_MIN, INT32_MAX, 1 \x7d" ∧
    valueToC (.jobj []) (.jstr "int") =
      .ok "\x7b 0, INT32_MIN, INT32_MAX, 1 \x7d" ∧
    valueToC (.jobj [("val", .jint "7")]) (.jstr "int") =
      .ok "\x7b 7, INT32_MIN, INT32_MAX, 1 \x7d" ∧
    valueToC (.jfloat "2.5") (.jstr "float") =
      .ok "\x7b 2.5, -DBL_MAX, DBL_MAX, DBL_MIN \x7d" :=
  ⟨c10_value_to_c_widening.1 "42",
   c10_value_to_c_widening.2.1 [] rfl rfl rfl rfl,
   c10_value_to_c_widening.2.2.1 [("val", .jint "7")] "7" rfl rfl rfl rfl,
   c10_value_to_c_widening.2.2.2.1 "2.5"⟩

/-- C4: the code generator is deterministic.  The whole pipeline is a pure
function of the library behaviour, the schema contents, the input JSON
contents, the prefix and the input and output file names, so two runs that
agree on all of them produce identical stderr, output header, output code
and exit status. -/
theorem c4_generator_deterministic (lib : JsonLib)
    (rd : SchemaErr → List String) (vin1 vin2 : ValidateInput)
    (p1 p2 : Option String) (nm1 nm2 : GenNames)
    (hschema : vin1.schemaText = vin2.schemaText)
    (hinput : vin1.dataText = vin2.dataText)
    (hpfx : p1 = p2)
    (hinName : vin1.dataName = vin2.dataName)
    (hschemaName : vin1.schemaName = vin2.schemaName)
    (houtNames : nm1 = nm2) :
    runGen lib rd vin1 p1 nm1 = runGen lib rd vin2 p2 nm2 := by
  cases vin1
  cases vin2
  simp only at hschema hinput hinName hschemaName
  subst hschema hinput hinName hschemaName hpfx houtNames
  rfl

/-- Concrete inputs for the determinism witness. -/
def c4Vin : ValidateInput :=
  ⟨"node.json", "\x7b\"name\": \"n\"\x7d", "schema.json", "\x7b\x7d"⟩

/-- A concrete library behaviour for witnesses: everything decodes to an
empty object and validates cleanly. -/
def trivialLib : JsonLib :=
  ⟨fun _ => .ok (.jobj []), fun _ => none, fun _ _ => []⟩

/-- C4 witness: two runs on the same concrete inputs coincide. -/
theorem c4_generator_deterministic_witness :
    runGen trivialLib (fun _ => []) c4Vin none ⟨"node.json", "o.h", "o.c"⟩ =
      runGen trivialLib (fun _ => []) c4Vin none ⟨"node.json", "o.h", "o.c"⟩ :=
  c4_generator_deterministic trivialLib (fun _ => []) c4Vin c4Vin none none
    ⟨"node.json", "o.h", "o.c"⟩ ⟨"node.json", "o.h", "o.c"⟩
    rfl rfl rfl rfl rfl rfl

/-- C8: generation is atomic with respect to its outputs.  Whenever a run
of the generator does not finish with exit code zero (JSON parse error,
schema validation error, or any exception while emitting code), both
output files have been unlinked, so no failing run leaves an output file
behind. -/
theorem c8_failed_run_leaves_no_outputs (lib : JsonLib)
    (rd : SchemaErr → List String) (vin : ValidateInput)
    (pfxOpt : Option String) (nm : GenNames)
    (h : (runGen lib rd vin pfxOpt nm).2.2 ≠ ExitStatus.code 0) :
    (runGen lib rd vin pfxOpt nm).2.1 = ⟨none, none⟩ := by
  unfold runGen at h ⊢
  cases hr : (jsonLoadAndCheck lib rd vin 3).2 with
  | error se => cases se <;> simp [hr]
  | ok decoded =>
    cases hl : loadJsonGen decoded pfxOpt with
    | error e => simp [hr, hl]
    | ok data =>
      cases hg : generatePhase data nm with
      | error e => simp [hr, hl, hg]
      | ok hc => simp [hr, hl, hg] at h

/-- A library behaviour whose decode always fails at line 1 column 1. -/
def failingLib : JsonLib :=
  ⟨fun _ => .error ⟨"Expecting value", .single 1 1⟩, fun _ => none, fun _ _ => []⟩

/-- C8 witness: a run failing on a JSON parse error leaves neither output
file. -/
theorem c8_failed_run_leaves_no_outputs_witness :
    (runGen failingLib (fun _ => [])
      ⟨"input.json", "x", "schema.json", "\x7b\x7d"⟩ none
      ⟨"input.json", "o.h", "o.c"⟩).2.1 = ⟨none, none⟩ :=
  c8_failed_run_leaves_no_outputs failingLib (fun _ => [])
    ⟨"input.json", "x", "schema.json", "\x7b\x7d"⟩ none
    ⟨"input.json", "o.h", "o.c"⟩ (by decide)

/-- Lookup of the key just written by tblSet. -/
theorem tblSet_lookup_self {α : Type} (l : List (String × α)) (k : String) (v : α) :
    (tblSet l k v).lookup k = some v := by
  induction l with
  | nil => simp [tblSet, List.lookup]
  | cons hd tl ih =>
    obtain ⟨k0, v0⟩ := hd
    by_cases h : k0 = k
    · simp [tblSet, h, List.lookup]
    · have hb : (k == k0) = false := beq_eq_false_iff_ne.mpr (fun e => h e.symm)
      simp [tblSet, h, List.lookup, hb, ih]

/-- Members of a tblSet result come from the old table or are the new
binding. -/
theorem tblSet_mem {α : Type} (l : List (String × α)) (k : String) (v : α)
    (kv : String × α) (h : kv ∈ tblSet l k v) : kv ∈ l ∨ kv = (k, v) := by
  induction l with
  | nil => simpa [tblSet] using h
  | cons hd tl ih =>
    obtain ⟨k0, v0⟩ := hd
    by_cases he : k0 = k
    · simp only [tblSet, if_pos he, List.mem_cons] at h
      cases h with
      | inl h => exact Or.inr (by rw [h, he])
      | inr h => exact Or.inl (List.mem_cons_of_mem _ h)
    · simp only [tblSet, if_neg he, List.mem_cons] at h
      cases h with
      | inl h => exact Or.inl (by simp [h])
      | inr h =>
        cases ih h with
        | inl h2 => exact Or.inl (List.mem_cons_of_mem _ h2)
        | inr h2 => exact Or.inr h2

/-- The Makefile-variable helpers never touch the Kconfig table. -/
theorem addMakefileVar_kconfig (ctx : DepContext) (k v attrib : String)
    (ow : Bool) : (ctx.addMakefileVar k v attrib ow).kconfig = ctx.kconfig := rfl

/-- set_makefile_compflags never touches the Kconfig table. -/
theorem setMakefileCompflags_kconfig (ctx : DepContext) (f : FlagsSpec)
    (p s : String) : (setMakefileCompflags ctx f p s).kconfig = ctx.kconfig := by
  unfold setMakefileCompflags
  rcases f with ⟨v, a⟩
  cases v with
  | none => rfl
  | some vv =>
    simp only
    split
    · rfl
    · cases a with
      | none => rfl
      | some aa =>
        by_cases h : aa ≠ "" <;>
          simp [h, DepContext.addAppendMakefileVar,
            DepContext.addCondMakefileVar, DepContext.addMakefileVar]

/-- Lookup of a different key is unchanged by tblSet. -/
theorem tblSet_lookup_ne {α : Type} (l : List (String × α)) (k k2 : String)
    (v : α) (h : k ≠ k2) : (tblSet l k2 v).lookup k = l.lookup k := by
  induction l with
  | nil => simp [tblSet, List.lookup, beq_eq_false_iff_ne.mpr h]
  | cons hd tl ih =>
    obtain ⟨k0, v0⟩ := hd
    by_cases he : k0 = k2
    · subst he
      simp [tblSet, List.lookup, beq_eq_false_iff_ne.mpr h]
    · simp only [tblSet, if_neg he, List.lookup]
      cases hk0 : (k == k0) with
      | true => rfl
      | false => exact ih

/-- The Makefile key HAVE_PYTHON_<dep> is never the NOT_FOUND key. -/
theorem havePython_ne_notFound (u : String) :
    ("HAVE_PYTHON_" ++ u) ≠ "NOT_FOUND" := by
  intro h
  have hfalse : (("HAVE_PYTHON_" ++ u) == "NOT_FOUND") = false := rfl
  have htrue := beq_iff_eq.mpr h
  rw [hfalse] at htrue
  exact absurd htrue (by decide)

/-- The concrete python check of the counterexample: an optional glib
dependency probed by importing gi, with a failing import subprocess. -/
def c1PythonConf : PyConf := ⟨"glib", some "gi", false⟩

/-- The concrete pkg-config check of the counterexample: a glib dependency
with no version constraint whose --cflags query exits non-zero while the
--libs query exits zero. -/
def c1PkgConf : PkgConf := ⟨"glib", "glib-2.0", none, none, none⟩

/-- The oracle of the counterexample pkg-config check: the --cflags
subprocess exits non-zero (status false), the --libs subprocess exits
zero. -/
def c1PkgOracle : PkgOracle := ⟨true, "", false, "-lglib-2.0", true⟩

/-- C1 counterexample, in two parts.  First, a failing python import check
records nothing at all in the Kconfig table (which stays empty), only the
Makefile variable HAVE_PYTHON_GLIB ?= n, so the claimed HAVE_GLIB default
n Kconfig entry for the python subprocess check does not exist.  Second,
a pkg-config check one of whose query subprocesses (--cflags) exits
non-zero still records HAVE_GLIB default y, because the --libs query
exited zero — a non-zero subprocess exit is not treated as the feature
being absent. -/
theorem c1_counterexample :
    (handlePythonCheck c1PythonConf false DepContext.init =
      .ok (⟨[], [("HAVE_PYTHON_GLIB", ⟨"n", "?="⟩)]⟩, false) ∧
    runChecks [.pythonCheck c1PythonConf false] DepContext.init =
      .ok ⟨[], [("HAVE_PYTHON_GLIB", ⟨"n", "?="⟩)]⟩) ∧
    (c1PkgOracle.cflagsStatus = false ∧
    ((handlePkgconfigCheck c1PkgConf c1PkgOracle DepContext.init).1.kconfig).lookup
      "HAVE_GLIB" = some ⟨"y", "bool"⟩) := by
  refine ⟨⟨?_, ?_⟩, ?_, ?_⟩ <;> rfl

/-- C1 amended: the ccode check records HAVE_<DEP> in Kconfig as y exactly
when the compile subprocess exits zero and as n otherwise; the pkg-config
check records HAVE_<DEP> as y exactly when the requested version query
(if any) succeeds and at least one of the cflags and libs queries exits
zero; the python import check (required or not) does not touch the
Kconfig table at all and instead records HAVE_PYTHON_<DEP> as a
conditional Makefile variable set to y or n by the import subprocess
status. -/
theorem c1_subprocess_checks_amended :
    (∀ (conf : CcodeConf) (ok : Bool) (ctx : DepContext),
      ((handleCcodeCheck conf ok ctx).1.kconfig).lookup
          ("HAVE_" ++ pyUpper conf.dependency) =
        some ⟨if ok then "y" else "n", "bool"⟩) ∧
    (∀ (conf : PkgConf) (orc : PkgOracle) (ctx : DepContext),
      ((handlePkgconfigCheck conf orc ctx).1.kconfig).lookup
          ("HAVE_" ++ pyUpper conf.dependency) =
        some ⟨if ((!(optTruthy conf.exactVersion || optTruthy conf.atleastVersion ||
                    optTruthy conf.maxVersion) || orc.verStatus) &&
                  (orc.cflagsStatus || orc.ldflagsStatus)) then "y" else "n",
              "bool"⟩) ∧
    (∀ (conf : PyConf) (ok : Bool) (ctx : DepContext) (pkg : String),
      conf.pkgname = some pkg → pkg ≠ "" →
      ∃ ctx', handlePythonCheck conf ok ctx = .ok (ctx', ok) ∧
        ctx'.kconfig = ctx.kconfig ∧
        (ctx.makefileVars.lookup ("HAVE_PYTHON_" ++ pyUpper conf.dependency) = none →
          ctx'.makefileVars.lookup ("HAVE_PYTHON_" ++ pyUpper conf.dependency) =
            some ⟨if ok then "y" else "n", "?="⟩)) := by
  refine ⟨?_, ?_, ?_⟩
  · intro conf ok ctx
    cases ok with
    | false =>
      simp [handleCcodeCheck, DepContext.addKconfig, tblSet_lookup_self]
    | true =>
      simp only [handleCcodeCheck, if_pos rfl]
      cases conf.cflags with
      | none =>
        cases conf.ldflags with
        | none => simp [DepContext.addKconfig, tblSet_lookup_self]
        | some f =>
          simp [DepContext.addKconfig, setMakefileCompflags_kconfig,
            tblSet_lookup_self]
      | some f =>
        cases conf.ldflags with
        | none =>
          simp [DepContext.addKconfig, setMakefileCompflags_kconfig,
            tblSet_lookup_self]
        | some g =>
          simp [DepContext.addKconfig, setMakefileCompflags_kconfig,
            tblSet_lookup_self]
  · intro conf orc ctx
    rcases orc with ⟨vs, co, cs, lo, ls⟩
    simp only [handlePkgconfigCheck]
    cases hreq : (optTruthy conf.exactVersion || optTruthy conf.atleastVersion ||
        optTruthy conf.maxVersion) <;>
      cases vs <;> cases cs <;> cases ls <;>
        simp [DepContext.addKconfig, DepContext.addCondMakefileVar,
          addMakefileVar_kconfig, tblSet_lookup_self]
  · intro conf ok ctx pkg hpkg hne
    rcases conf with ⟨dep, pkgname, req⟩
    simp only at hpkg
    subst hpkg
    refine ⟨(if req && !ok then
        ctx.addAppendMakefileVar "NOT_FOUND"
          (ctx.findMakefileVar "NOT_FOUND" ++ "python module: " ++ pkg ++ "\\n")
          true
      else ctx).addCondMakefileVar ("HAVE_PYTHON_" ++ pyUpper dep)
        (if ok then "y" else "n"), ?_, ?_, ?_⟩
    · simp [handlePythonCheck, hne]
    · by_cases hrq : (req && !ok) = true <;>
        simp [hrq, DepContext.addCondMakefileVar, DepContext.addAppendMakefileVar,
          DepContext.addMakefileVar]
    · intro hpre
      by_cases hrq : (req && !ok) = true
      · have hpre2 : ((ctx.addAppendMakefileVar "NOT_FOUND"
            (ctx.findMakefileVar "NOT_FOUND" ++ "python module: " ++ pkg ++ "\\n")
            true).makefileVars).lookup ("HAVE_PYTHON_" ++ pyUpper dep) = none := by
          simp only [DepContext.addAppendMakefileVar, DepContext.addMakefileVar]
          rw [tblSet_lookup_ne _ _ _ _ (havePython_ne_notFound (pyUpper dep))]
          exact hpre
        simp [hrq, DepContext.addCondMakefileVar, DepContext.addMakefileVar,
          hpre2, tblSet_lookup_self]
      · simp [hrq, DepContext.addCondMakefileVar, DepContext.addMakefileVar,
          hpre, tblSet_lookup_self]

/-- C1 amended witness: concrete instances of all three conjuncts, the
python one on a required check with a failing import. -/
theorem c1_subprocess_checks_amended_witness :
    ((handleCcodeCheck ⟨"udev", none, none⟩ false DepContext.init).1.kconfig).lookup
        "HAVE_UDEV" = some ⟨"n", "bool"⟩ ∧
    ((handlePkgconfigCheck ⟨"glib", "glib-2.0", none, none, none⟩
        ⟨true, "-I/usr/include", true, "-lglib", false⟩ DepContext.init).1.kconfig).lookup
        "HAVE_GLIB" = some ⟨"y", "bool"⟩ ∧
    ∃ ctx', handlePythonCheck ⟨"glib", some "gi", true⟩ false DepContext.init =
        .ok (ctx', false) ∧
      ctx'.kconfig = DepContext.init.kconfig ∧
      (DepContext.init.makefileVars.lookup "HAVE_PYTHON_GLIB" = none →
        ctx'.makefileVars.lookup "HAVE_PYTHON_GLIB" = some ⟨"n", "?="⟩) := by
  refine ⟨?_, ?_, ?_⟩
  · exact c1_subprocess_checks_amended.1 ⟨"udev", none, none⟩ false DepContext.init
  · exact c1_subprocess_checks_amended.2.1 ⟨"glib", "glib-2.0", none, none, none⟩
      ⟨true, "-I/usr/include", true, "-lglib", false⟩ DepContext.init
  · exact c1_subprocess_checks_amended.2.2 ⟨"glib", some "gi", true⟩ false
      DepContext.init "gi" rfl (by decide)

/-- Data of a string append, for normalizing concatenations. -/
theorem strData_append (a b : String) : (a ++ b).data = a.data ++ b.data := rfl

/-- Two strings with the same character data are equal. -/
theorem string_eq_of_data (a b : String) (h : a.data = b.data) : a = b := by
  cases a
  cases b
  simp only at h
  rw [h]

/-- Merging the literal pieces of a Kconfig stanza around the bool type. -/
theorem stanzaMerge (a b : String) :
    "config " ++ a ++ "\n       " ++ "bool" ++ "\n       default " ++ b ++ "\n" =
      "config " ++ a ++ "\n       bool\n       default " ++ b ++ "\n" := by
  apply string_eq_of_data
  simp [strData_append]

/-- The Kconfig keys a list of checks is licensed to write: HAVE_<DEP> for
its pkg-config and ccode checks. -/
def kconfigKeysOf (checks : List DepCheck) : List String :=
  checks.filterMap (fun c =>
    match c with
    | .pkgconfig conf _ => some ("HAVE_" ++ pyUpper conf.dependency)
    | .ccode conf _ => some ("HAVE_" ++ pyUpper conf.dependency)
    | _ => none)

/-- Shape of a legal Kconfig entry: a licensed HAVE_ key, type bool, and
value y or n. -/
def kEntryOk (keys : List String) (kv : String × KEntry) : Prop :=
  kv.1 ∈ keys ∧ kv.2.ktype = "bool" ∧ (kv.2.value = "y" ∨ kv.2.value = "n")

/-- The pkg-config handler rewrites exactly its HAVE_ key with a bool
y-or-n entry. -/
theorem handlePkgconfigCheck_kconfig (conf : PkgConf) (orc : PkgOracle)
    (ctx : DepContext) :
    ∃ v, (handlePkgconfigCheck conf orc ctx).1.kconfig =
        tblSet ctx.kconfig ("HAVE_" ++ pyUpper conf.dependency) ⟨v, "bool"⟩ ∧
      (v = "y" ∨ v = "n") := by
  rcases orc with ⟨vs, co, cs, lo, ls⟩
  simp only [handlePkgconfigCheck]
  cases hreq : (optTruthy conf.exactVersion || optTruthy conf.atleastVersion ||
      optTruthy conf.maxVersion) <;>
    cases vs <;> cases cs <;> cases ls <;> exact ⟨_, rfl, by simp⟩

/-- The ccode handler rewrites exactly its HAVE_ key with a bool y-or-n
entry. -/
theorem handleCcodeCheck_kconfig (conf : CcodeConf) (ok : Bool)
    (ctx : DepContext) :
    ∃ v, (handleCcodeCheck conf ok ctx).1.kconfig =
        tblSet ctx.kconfig ("HAVE_" ++ pyUpper conf.dependency) ⟨v, "bool"⟩ ∧
      (v = "y" ∨ v = "n") := by
  cases ok with
  | false => exact ⟨"n", rfl, Or.inr rfl⟩
  | true =>
    refine ⟨"y", ?_, Or.inl rfl⟩
    simp only [handleCcodeCheck, if_pos rfl]
    cases conf.cflags with
    | none =>
      cases conf.ldflags with
      | none => rfl
      | some f => simp [setMakefileCompflags_kconfig, DepContext.addKconfig]
    | some f =>
      cases conf.ldflags with
      | none => simp [setMakefileCompflags_kconfig, DepContext.addKconfig]
      | some g => simp [setMakefileCompflags_kconfig, DepContext.addKconfig]

/-- The exec handler never touches the Kconfig table. -/
theorem handleExecCheck_kconfig (conf : ExecConf) (w : Option String)
    (ctx : DepContext) (p : DepContext × Bool)
    (h : handleExecCheck conf w ctx = .ok p) : p.1.kconfig = ctx.kconfig := by
  unfold handleExecCheck at h
  cases hx : conf.exec with
  | none => rw [hx] at h; cases h
  | some exe =>
    rw [hx] at h
    by_cases he : exe = ""
    · simp [he] at h
    · simp only [he, if_neg, if_false] at h
      split at h <;>
        · cases h
          simp [DepContext.addCondMakefileVar, DepContext.addAppendMakefileVar,
            addMakefileVar_kconfig]

/-- The python handler never touches the Kconfig table. -/
theorem handlePythonCheck_kconfig (conf : PyConf) (ok : Bool)
    (ctx : DepContext) (p : DepContext × Bool)
    (h : handlePythonCheck conf ok ctx = .ok p) : p.1.kconfig = ctx.kconfig := by
  unfold handlePythonCheck at h
  cases hx : conf.pkgname with
  | none => rw [hx] at h; cases h
  | some pkg =>
    rw [hx] at h
    by_cases he : pkg = ""
    · simp [he] at h
    · simp only [he, if_neg, if_false] at h
      split at h <;>
        · cases h
          simp [DepContext.addCondMakefileVar, DepContext.addAppendMakefileVar,
            addMakefileVar_kconfig]

/-- The flags handlers never touch the Kconfig table. -/
theorem handleFlagsCheck_kconfig (conf : FlagsConf) (ctx : DepContext)
    (p : DepContext × Bool) (h : handleFlagsCheck conf ctx = .ok p) :
    p.1.kconfig = ctx.kconfig := by
  unfold handleFlagsCheck at h
  by_cases h1 : conf.flags.isEmpty = true
  · simp [h1] at h
  · simp only [h1, if_false] at h
    by_cases h2 : conf.firstOk = true
    · simp only [h2, if_true] at h
      cases h
      simp [DepContext.addAppendMakefileVar, addMakefileVar_kconfig]
    · simp only [h2, if_false] at h
      by_cases h3 : (flagsCheckLoop (strJoinSep " " conf.flags).toList
          conf.perCharOk []).isEmpty = true
      · simp only [h3, if_true] at h
        cases h
        rfl
      · simp only [h3, if_false] at h
        cases h
        simp [DepContext.addAppendMakefileVar, addMakefileVar_kconfig]

/-- The licensed key set grows monotonically along the check list. -/
theorem kconfigKeysOf_mono (c : DepCheck) (rest : List DepCheck) (k : String)
    (h : k ∈ kconfigKeysOf rest) : k ∈ kconfigKeysOf (c :: rest) := by
  cases c <;> simp [kconfigKeysOf, List.filterMap_cons] at h ⊢ <;> simp [h]

/-- Every Kconfig entry present after a run either predates it or is a
legal entry of one of the executed checks. -/
theorem runChecks_kconfig_aux :
    ∀ (checks : List DepCheck) (ctx ctx' : DepContext),
      runChecks checks ctx = .ok ctx' →
      ∀ kv ∈ ctx'.kconfig, kv ∈ ctx.kconfig ∨ kEntryOk (kconfigKeysOf checks) kv := by
  intro checks
  induction checks with
  | nil =>
    intro ctx ctx' h kv hkv
    unfold runChecks at h
    cases h
    exact Or.inl hkv
  | cons c rest ih =>
    intro ctx ctx' h kv hkv
    unfold runChecks at h
    cases hc : runCheck c ctx with
    | error e => rw [hc] at h; cases h
    | ok p =>
      rw [hc] at h
      have step := ih p.1 ctx' h kv hkv
      cases step with
      | inr hok =>
        exact Or.inr ⟨kconfigKeysOf_mono c rest kv.1 hok.1, hok.2⟩
      | inl hin =>
        cases c with
        | pkgconfig conf orc =>
          obtain ⟨v, hk, hv⟩ := handlePkgconfigCheck_kconfig conf orc ctx
          have hp : p.1.kconfig =
              tblSet ctx.kconfig ("HAVE_" ++ pyUpper conf.dependency) ⟨v, "bool"⟩ := by
            have : p = handlePkgconfigCheck conf orc ctx := by
              simpa [runCheck] using hc.symm
            rw [this, hk]
          rw [hp] at hin
          cases tblSet_mem _ _ _ _ hin with
          | inl h2 => exact Or.inl h2
          | inr h2 =>
            refine Or.inr ⟨?_, ?_, ?_⟩
            · rw [h2]; simp [kconfigKeysOf, List.filterMap_cons]
            · rw [h2]
            · rw [h2]; exact hv
        | ccode conf ok =>
          obtain ⟨v, hk, hv⟩ := handleCcodeCheck_kconfig conf ok ctx
          have hp : p.1.kconfig =
              tblSet ctx.kconfig ("HAVE_" ++ pyUpper conf.dependency) ⟨v, "bool"⟩ := by
            have : p = handleCcodeCheck conf ok ctx := by
              simpa [runCheck] using hc.symm
            rw [this, hk]
          rw [hp] at hin
          cases tblSet_mem _ _ _ _ hin with
          | inl h2 => exact Or.inl h2
          | inr h2 =>
            refine Or.inr ⟨?_, ?_, ?_⟩
            · rw [h2]; simp [kconfigKeysOf, List.filterMap_cons]
            · rw [h2]
            · rw [h2]; exact hv
        | execCheck conf w =>
          have := handleExecCheck_kconfig conf w ctx p (by simpa [runCheck] using hc)
          rw [this] at hin
          exact Or.inl hin
        | pythonCheck conf ok =>
          have := handlePythonCheck_kconfig conf ok ctx p (by simpa [runCheck] using hc)
          rw [this] at hin
          exact Or.inl hin
        | cflagsCheck conf =>
          have := handleFlagsCheck_kconfig conf ctx p (by simpa [runCheck] using hc)
          rw [this] at hin
          exact Or.inl hin
        | ldflagsCheck conf =>
          have := handleFlagsCheck_kconfig conf ctx p (by simpa [runCheck] using hc)
          rw [this] at hin
          exact Or.inl hin

/-- C9: after any run of the dependency checks from a fresh context, the
Kconfig table holds only entries named HAVE_<DEPENDENCY> for a pkg-config
or ccode check of the list, all of type bool with value y or n, and hence
every stanza of the generated Kconfig fragment is a bool config with
default y or n. -/
theorem c9_kconfig_invariant (checks : List DepCheck) (ctx' : DepContext)
    (h : runChecks checks DepContext.init = .ok ctx') :
    (∀ kv ∈ ctx'.kconfig, kEntryOk (kconfigKeysOf checks) kv) ∧
    kconfigGen ctx' = strConcat (ctx'.kconfig.map (fun kv =>
      "config " ++ kv.1 ++ "\n       bool\n       default " ++ kv.2.value ++ "\n")) := by
  have hmain : ∀ kv ∈ ctx'.kconfig, kEntryOk (kconfigKeysOf checks) kv := by
    intro kv hkv
    cases runChecks_kconfig_aux checks DepContext.init ctx' h kv hkv with
    | inl h2 => simp [DepContext.init] at h2
    | inr h2 => exact h2
  refine ⟨hmain, ?_⟩
  unfold kconfigGen
  congr 1
  apply List.map_congr_left
  intro kv hkv
  rw [(hmain kv hkv).2.1]
  exact stanzaMerge kv.1 kv.2.value

/-- Concrete checks for the C9 witness: one succeeding ccode probe and one
failing python probe. -/
def c9Checks : List DepCheck :=
  [.ccode ⟨"udev", none, none⟩ true, .pythonCheck c1PythonConf false]

/-- C9 witness: the invariant instantiated on a concrete run. -/
theorem c9_kconfig_invariant_witness :
    (∀ kv ∈ (DepContext.mk [("HAVE_UDEV", ⟨"y", "bool"⟩)]
        [("HAVE_PYTHON_GLIB", ⟨"n", "?="⟩)]).kconfig,
      kEntryOk (kconfigKeysOf c9Checks) kv) ∧
    kconfigGen (DepContext.mk [("HAVE_UDEV", ⟨"y", "bool"⟩)]
        [("HAVE_PYTHON_GLIB", ⟨"n", "?="⟩)]) =
      strConcat ((DepContext.mk [("HAVE_UDEV", ⟨"y", "bool"⟩)]
        [("HAVE_PYTHON_GLIB", ⟨"n", "?="⟩)]).kconfig.map (fun kv =>
        "config " ++ kv.1 ++ "\n       bool\n       default " ++ kv.2.value ++ "\n")) :=
  c9_kconfig_invariant c9Checks
    (DepContext.mk [("HAVE_UDEV", ⟨"y", "bool"⟩)]
      [("HAVE_PYTHON_GLIB", ⟨"n", "?="⟩)]) (by rfl)

/-- The parsed array size of a port description, zero for scalar ports
(and for ports the loop would reject, where it is never used). -/
def claimArraySize (o : JVal) : Nat :=
  match getItem o "name" >>= asStr with
  | .ok nm =>
    match portNameAndSize nm with
    | .ok ps => ps.2
    | .error _ => 0
  | .error _ => 0

/-- The claimed base-index offset contributed by a prefix of the ports
list: the sum of array_size - 1 over its array ports. -/
def claimOffset (ports : List JVal) : Nat :=
  (ports.map claimArraySize).foldr
    (fun s acc => (if 0 < s then s - 1 else 0) + acc) 0

/-- Unfolding of claimOffset on a cons. -/
theorem claimOffset_cons (p : JVal) (l : List JVal) :
    claimOffset (p :: l) =
      (if 0 < claimArraySize p then claimArraySize p - 1 else 0) + claimOffset l := rfl

/-- Port macros of the port after a given prefix: its base macro sits at
position-index plus the claimed offset of the prefix, and its element
macros follow consecutively. -/
theorem portMacroPairs_mem_aux (label tag : String) :
    ∀ (pre : List JVal) (o : JVal) (post : List JVal) (i off : Nat)
      (l : List (String × Nat)),
      portMacroPairs label tag (pre ++ o :: post) i off = .ok l →
      ∀ (nm pname : String) (psize : Nat),
        (getItem o "name" >>= asStr) = .ok nm →
        portNameAndSize nm = .ok (pname, psize) →
        (label ++ "__" ++ tag ++ "__" ++ pyUpper (cClean pname),
          i + pre.length + off + claimOffset pre) ∈ l ∧
        ∀ k, k < psize →
          (label ++ "__" ++ tag ++ "__" ++ pyUpper (cClean pname) ++ "_" ++ toString k,
            i + pre.length + off + claimOffset pre + k) ∈ l := by
  intro pre
  induction pre with
  | nil =>
    intro o post i off l h nm pname psize hnm hps
    simp only [List.nil_append] at h
    rw [portMacroPairs] at h
    rw [hnm] at h
    simp only [exceptBind_ok] at h
    rw [hps] at h
    simp only [exceptBind_ok] at h
    cases hrec : portMacroPairs label tag post (i + 1)
        (if psize > 0 then off + psize - 1 else off) with
    | error e =>
      rw [hrec] at h
      simp [exceptBind_err] at h
    | ok later =>
      rw [hrec] at h
      simp only [exceptBind_ok] at h
      cases h
      simp only [List.length_nil, Nat.add_zero, claimOffset, List.map_nil,
        List.foldr_nil]
      constructor
      · exact List.mem_cons_self _ _
      · intro k hk
        exact List.mem_cons_of_mem _ (List.mem_append_left _
          (List.mem_map.mpr ⟨k, List.mem_range.mpr hk, rfl⟩))
  | cons p pre' ih =>
    intro o post i off l h nm pname psize hnm hps
    simp only [List.cons_append] at h
    rw [portMacroPairs] at h
    cases hp1 : (getItem p "name" >>= asStr) with
    | error e =>
      rw [hp1] at h
      simp [exceptBind_err] at h
    | ok nmp =>
      rw [hp1] at h
      simp only [exceptBind_ok] at h
      cases hp2 : portNameAndSize nmp with
      | error e =>
        rw [hp2] at h
        simp [exceptBind_err] at h
      | ok ps =>
        rw [hp2] at h
        simp only [exceptBind_ok] at h
        obtain ⟨pnp, sp⟩ := ps
        cases hrec : portMacroPairs label tag (pre' ++ o :: post) (i + 1)
            (if sp > 0 then off + sp - 1 else off) with
        | error e =>
          rw [hrec] at h
          simp [exceptBind_err] at h
        | ok later =>
          rw [hrec] at h
          simp only [exceptBind_ok] at h
          cases h
          have IH := ih o post (i + 1) (if sp > 0 then off + sp - 1 else off)
            later hrec nm pname psize hnm hps
          have hsz : claimArraySize p = sp := by
            simp [claimArraySize, hp1, hp2]
          have hidx : (i + 1) + pre'.length + (if sp > 0 then off + sp - 1 else off) +
              claimOffset pre' =
              i + (p :: pre').length + off + claimOffset (p :: pre') := by
            rw [claimOffset_cons, hsz]
            simp only [List.length_cons]
            by_cases hsp : 0 < sp
            · simp only [if_pos hsp, gt_iff_lt]
              omega
            · simp only [if_neg hsp, gt_iff_lt]
              omega
          constructor
          · have hm := IH.1
            rw [hidx] at hm
            exact List.mem_cons_of_mem _ (List.mem_append_right _ hm)
          · intro k hk
            have hm := IH.2 k hk
            rw [hidx] at hm
            exact List.mem_cons_of_mem _ (List.mem_append_right _ hm)

/-- C3: in the generated header, the port at position i of an in_ports (or
out_ports) list gets a base index macro whose value is i plus the sum of
(array_size - 1) over the array ports before it, and an array port of
size n additionally gets n element macros at consecutive indices starting
at that base index; each pair is rendered as a define line of the header
entry. -/
theorem c3_port_index_macros (NC tag : String) (pre post : List JVal) (o : JVal)
    (l : List (String × Nat))
    (h : portMacroPairs NC tag (pre ++ o :: post) 0 0 = .ok l)
    (nm pname : String) (psize : Nat)
    (hnm : (getItem o "name" >>= asStr) = .ok nm)
    (hps : portNameAndSize nm = .ok (pname, psize)) :
    ((NC ++ "__" ++ tag ++ "__" ++ pyUpper (cClean pname),
        pre.length + claimOffset pre) ∈ l ∧
      "#define " ++ (NC ++ "__" ++ tag ++ "__" ++ pyUpper (cClean pname)) ++
        " (" ++ toString (pre.length + claimOffset pre) ++ ")\n" ∈ l.map defineLine) ∧
    ∀ k, k < psize →
      (NC ++ "__" ++ tag ++ "__" ++ pyUpper (cClean pname) ++ "_" ++ toString k,
        pre.length + claimOffset pre + k) ∈ l := by
  have H := portMacroPairs_mem_aux NC tag pre o post 0 0 l h nm pname psize hnm hps
  have hz : 0 + pre.length + 0 + claimOffset pre = pre.length + claimOffset pre := by
    omega
  rw [hz] at H
  refine ⟨⟨H.1, ?_⟩, H.2⟩
  exact List.mem_map_of_mem defineLine H.1

/-- Concrete ports for the C3 witness: a scalar, then an array of three,
then the port under scrutiny. -/
def c3Ports : List JVal :=
  [.jobj [("name", .jstr "A")], .jobj [("name", .jstr "B[3]")],
   .jobj [("name", .jstr "C")]]

/-- C3 witness: the port C after a scalar and a size-3 array port gets
base index 2 + (3 - 1) = 4. -/
theorem c3_port_index_macros_witness :
    (("NODE" ++ "__" ++ "IN" ++ "__" ++ pyUpper (cClean "C"),
        ([JVal.jobj [("name", .jstr "A")], JVal.jobj [("name", .jstr "B[3]")]]).length +
          claimOffset [JVal.jobj [("name", .jstr "A")], JVal.jobj [("name", .jstr "B[3]")]]) ∈
      [("NODE__IN__A", 0), ("NODE__IN__B", 1), ("NODE__IN__B_0", 1),
       ("NODE__IN__B_1", 2), ("NODE__IN__B_2", 3), ("NODE__IN__C", 4)] ∧
      "#define " ++ ("NODE" ++ "__" ++ "IN" ++ "__" ++ pyUpper (cClean "C")) ++
        " (" ++ toString (([JVal.jobj [("name", .jstr "A")],
          JVal.jobj [("name", .jstr "B[3]")]]).length +
          claimOffset [JVal.jobj [("name", .jstr "A")], JVal.jobj [("name", .jstr "B[3]")]]) ++
        ")\n" ∈
        ([("NODE__IN__A", 0), ("NODE__IN__B", 1), ("NODE__IN__B_0", 1),
          ("NODE__IN__B_1", 2), ("NODE__IN__B_2", 3),
          ("NODE__IN__C", 4)] : List (String × Nat)).map defineLine) ∧
    ∀ k, k < 0 →
      ("NODE" ++ "__" ++ "IN" ++ "__" ++ pyUpper (cClean "C") ++ "_" ++ toString k,
        ([JVal.jobj [("name", .jstr "A")], JVal.jobj [("name", .jstr "B[3]")]]).length +
          claimOffset [JVal.jobj [("name", .jstr "A")], JVal.jobj [("name", .jstr "B[3]")]] + k) ∈
      [("NODE__IN__A", 0), ("NODE__IN__B", 1), ("NODE__IN__B_0", 1),
       ("NODE__IN__B_1", 2), ("NODE__IN__B_2", 3), ("NODE__IN__C", 4)] :=
  c3_port_index_macros "NODE" "IN"
    [JVal.jobj [("name", .jstr "A")], JVal.jobj [("name", .jstr "B[3]")]] []
    (.jobj [("name", .jstr "C")])
    [("NODE__IN__A", 0), ("NODE__IN__B", 1), ("NODE__IN__B_0", 1),
     ("NODE__IN__B_1", 2), ("NODE__IN__B_2", 3), ("NODE__IN__C", 4)]
    (by rfl) "C" "C" 0 (by rfl) (by rfl)

/-- File names used by the C6 runs. -/
def c6Names : GenNames := ⟨"mytype.json", "mytype-gen.h", "mytype-gen.c"⟩

/-- A minimal node-type description with name and category and an optional
description field, no options and no ports. -/
def c6Desc (n cat : String) (descOpt : Option String) : JVal :=
  .jobj ([("name", .jstr n), ("category", .jstr cat)] ++
    (match descOpt with
     | some d => [("description", .jstr d)]
     | none => []))

/-- A minimal description lacking the category key. -/
def c6DescNoCategory (n : String) (descOpt : Option String) : JVal :=
  .jobj ([("name", .jstr n)] ++
    (match descOpt with
     | some d => [("description", .jstr d)]
     | none => []))

/-- C6 counterexample: the generator succeeds on a description that has no
description key (and no in_ports, out_ports or options either), so
generation does not require description to be present, and options is not
the only block that may be absent. -/
theorem c6_counterexample :
    (c6Desc "mytype" "test/io" none).get? "description" = none ∧
    (c6Desc "mytype" "test/io" none).get? "in_ports" = none ∧
    (c6Desc "mytype" "test/io" none).get? "out_ports" = none ∧
    (c6Desc "mytype" "test/io" none).get? "options" = none ∧
    isOkE (genFromDecoded (c6Desc "mytype" "test/io" none) none c6Names) = true := by
  refine ⟨rfl, rfl, rfl, rfl, ?_⟩
  decide

set_option maxHeartbeats 2000000 in
/-- C6 amended: of the top-level description fields, the generator itself
requires only name (read by load_json) and category (read by
generate_code_entry); description, options, in_ports and out_ports may
each be absent — a missing description is emitted as NULL — while a
missing name or category aborts generation with a KeyError. -/
theorem c6_required_fields_amended (n cat : String) (descOpt : Option String) :
    isOkE (genFromDecoded (c6Desc n cat descOpt) none c6Names) = true ∧
    isOkE (genFromDecoded (c6DescNoCategory n descOpt) none c6Names) = false ∧
    isOkE (genFromDecoded (.jobj [("category", .jstr cat)]) none c6Names) = false := by
  refine ⟨?_, ?_, ?_⟩
  · cases descOpt <;> rfl
  · cases descOpt <;> rfl
  · rfl

/-- Invariant of the run_test interleaving: every join already passed is of
a finished thread, and a printed summary snapshot covers all n threads. -/
def suiteInv (n : Nat) (s : SuiteState) : Prop :=
  (∀ t, t < s.joined → t ∈ s.finished.map Prod.fst) ∧
  (∀ f, s.printedLog = some f → ∀ t, t < n → t ∈ f.map Prod.fst)

/-- The invariant holds in every reachable state of a run over n tests. -/
theorem suiteInv_reachable (n : Nat) (s : SuiteState)
    (h : SuiteReachable n s) : suiteInv n s := by
  induction h with
  | refl =>
    refine ⟨?_, ?_⟩
    · intro t ht
      simp [SuiteState.init] at ht
    · intro f hf
      simp [SuiteState.init] at hf
  | @tail b c hab hbc ih =>
    obtain ⟨ih1, ih2⟩ := ih
    cases hbc with
    | spawn hlt => exact ⟨ih1, ih2⟩
    | finish t bb ht hnew =>
      refine ⟨?_, ?_⟩
      · intro u hu
        simp only [List.map_cons, List.mem_cons]
        exact Or.inr (ih1 u hu)
      · intro f hf
        exact ih2 f hf
    | joinNext hs hj hfin =>
      refine ⟨?_, ih2⟩
      intro u hu
      simp only at hu
      by_cases he : u = b.joined
      · rw [he]
        exact hfin
      · exact ih1 u (by omega)
    | printLog hs hj hp =>
      refine ⟨ih1, ?_⟩
      intro f hf t ht
      simp only at hf
      cases hf
      exact ih1 t (by omega)

/-- Every index finished before the snapshot contributes its test name to
the stat table the summary counts. -/
theorem suiteStat_key_mem (tests : List String) (nm : String) (i : Nat)
    (hget : tests.get? i = some nm) :
    ∀ (l : List (Nat × Bool)) (acc : List (String × Bool)),
      (nm ∈ acc.map Prod.fst ∨ ∃ b, (i, b) ∈ l) →
      nm ∈ (l.foldl
        (fun acc tb =>
          match tests.get? tb.1 with
          | some nm2 => tblSet acc nm2 tb.2
          | none => acc) acc).map Prod.fst := by
  intro l
  induction l with
  | nil =>
    intro acc h
    cases h with
    | inl h => exact h
    | inr h =>
      obtain ⟨b, hb⟩ := h
      simp at hb
  | cons hd tl ih =>
    intro acc h
    obtain ⟨j, c⟩ := hd
    simp only [List.foldl_cons]
    cases h with
    | inl h =>
      apply ih
      left
      cases hgj : tests.get? j with
      | none => simpa [hgj] using h
      | some nm2 => simpa [hgj] using tblSet_mem_of_mem acc nm2 nm c h
    | inr h =>
      obtain ⟨b, hb⟩ := h
      simp only [List.mem_cons] at hb
      cases hb with
      | inl hb =>
        rw [Prod.mk.injEq] at hb
        obtain ⟨rfl, rfl⟩ := hb
        apply ih
        left
        rw [hget]
        exact tblSet_mem_self acc nm b
      | inr hb =>
        apply ih
        right
        exact ⟨b, hb⟩

/-- C7: in every reachable state of a suite run in which the summary has
been printed, every spawned test thread had finished first: the snapshot
contains every test index, and therefore the stat table that the printed
TOTAL/SUCCESS/FAIL counts are computed from contains an entry for every
test in the list. -/
theorem c7_summary_counts_all_tests (tests : List String) (s : SuiteState)
    (f : List (Nat × Bool)) (h : SuiteReachable tests.length s)
    (hp : s.printedLog = some f) :
    (∀ i, i < tests.length → i ∈ f.map Prod.fst) ∧
    (∀ nm ∈ tests, nm ∈ (suiteStat tests f).map Prod.fst) := by
  have hinv := suiteInv_reachable tests.length s h
  have hall : ∀ i, i < tests.length → i ∈ f.map Prod.fst :=
    hinv.2 f hp
  refine ⟨hall, ?_⟩
  intro nm hnm
  obtain ⟨i, hget⟩ := List.mem_iff_get.mp hnm
  have hgq : tests.get? i.val = some nm := by
    rw [List.get?_eq_get i.isLt]
    simp only [Fin.eta]
    rw [hget]
  have hif : i.val ∈ f.map Prod.fst := hall i.val i.isLt
  obtain ⟨p, hmem, hfst⟩ := List.mem_map.mp hif
  obtain ⟨i2, b⟩ := p
  simp only at hfst
  unfold suiteStat
  refine suiteStat_key_mem tests nm i.val hgq f.reverse [] (Or.inr ⟨b, ?_⟩)
  rw [List.mem_reverse]
  rw [hfst] at hmem
  exact hmem

/-- C7 witness: a concrete run of one test (spawn, finish, join, print)
reaches a printed state whose snapshot and stat cover the test. -/
theorem c7_summary_counts_all_tests_witness :
    (∀ i, i < (["t0"] : List String).length →
      i ∈ ([((0 : Nat), true)] : List (Nat × Bool)).map Prod.fst) ∧
    (∀ nm ∈ (["t0"] : List String),
      nm ∈ (suiteStat ["t0"] [(0, true)]).map Prod.fst) := by
  have h1 : SuiteStep 1 SuiteState.init ⟨1, 0, [], none⟩ :=
    SuiteStep.spawn SuiteState.init (by decide)
  have h2 : SuiteStep 1 ⟨1, 0, [], none⟩ ⟨1, 0, [(0, true)], none⟩ :=
    SuiteStep.finish ⟨1, 0, [], none⟩ 0 true (by decide) (by simp)
  have h3 : SuiteStep 1 ⟨1, 0, [(0, true)], none⟩ ⟨1, 1, [(0, true)], none⟩ :=
    SuiteStep.joinNext ⟨1, 0, [(0, true)], none⟩ rfl (by decide) (by simp)
  have h4 : SuiteStep 1 ⟨1, 1, [(0, true)], none⟩
      ⟨1, 1, [(0, true)], some [(0, true)]⟩ :=
    SuiteStep.printLog ⟨1, 1, [(0, true)], none⟩ rfl rfl rfl
  have hreach : SuiteReachable 1 ⟨1, 1, [(0, true)], some [(0, true)]⟩ :=
    Relation.ReflTransGen.tail
      (Relation.ReflTransGen.tail
        (Relation.ReflTransGen.tail (Relation.ReflTransGen.single h1) h2) h3) h4
  exact c7_summary_counts_all_tests ["t0"] ⟨1, 1, [(0, true)], some [(0, true)]⟩
    [(0, true)] hreach rfl

/-- The context-line loop succeeds when every index lies inside the file. -/
theorem ctxLinesLoop_ok (lines : List String) (filename : String) (lf : Nat) :
    ∀ idxs : List Nat, (∀ i ∈ idxs, i < lines.length) →
      ∃ out, ctxLinesLoop lines filename lf idxs = .ok out := by
  intro idxs
  induction idxs with
  | nil => intro _; exact ⟨[], rfl⟩
  | cons i rest ih =>
    intro h
    have hi : i < lines.length := h i (List.mem_cons_self i rest)
    obtain ⟨out, hout⟩ := ih (fun j hj => h j (List.mem_cons_of_mem i hj))
    refine ⟨(filename ++ ":" ++ padZeros lf (i + 1) ++ ": " ++
      lines.get ⟨i, hi⟩ ++ "\n") :: out, ?_⟩
    unfold ctxLinesLoop
    rw [List.get?_eq_get hi, hout]
    rfl

/-- show_file_context succeeds when the error line is inside the file. -/
theorem showFileContext_ok (lines : List String) (filename : String)
    (lineno colno ctxLines lfSize : Nat) (h : lineno ≤ lines.length) :
    ∃ out, showFileContext lines filename lineno colno ctxLines lfSize = .ok out := by
  have hall : ∀ i ∈ List.range' (lineno - ctxLines) (lineno - (lineno - ctxLines)),
      i < lines.length := by
    intro i hi
    have := List.mem_range'_1.mp hi
    omega
  obtain ⟨out, hout⟩ := ctxLinesLoop_ok lines filename
    (if lfSize < 1 then (toString lineno).length else lfSize) _ hall
  refine ⟨out ++ [filename ++ ":" ++
    padZeros (if lfSize < 1 then (toString lineno).length else lfSize) lineno ++
    ": " ++ String.mk (List.replicate (colno - 1) '-') ++ "^\n"], ?_⟩
  simp only [showFileContext]
  rw [hout]

/-- show_json_load_exception on a single-location decode error whose
location lies inside the file: it prints the context lines, then the
file:line:column error line, then possibly the dangling-comma hint. -/
theorem showJsonLoadException_single_ok (msg contents filename : String)
    (l c ctxLines : Nat) (ln : String) (ch : Char)
    (hln : (pySplitNl contents).get? (l - 1) = some ln)
    (hch : ln.toList.get? (c - 1) = some ch) :
    ∃ pre hint,
      showJsonLoadException ⟨msg, .single l c⟩ contents filename ctxLines =
        .ok (pre ++ [filename ++ ":" ++ toString l ++ ":" ++ toString c ++
          ": error: " ++ msg ++ "\n"] ++ hint) := by
  have hlen : l - 1 < (pySplitNl contents).length := by
    obtain ⟨hl, -⟩ := List.get?_eq_some.mp hln
    exact hl
  obtain ⟨ctx, hctx⟩ := showFileContext_ok (pySplitNl contents) filename l c
    ctxLines 0 (by omega)
  refine ⟨ctx, if (msg = "Expecting property name enclosed in double quotes" ∧
      ch = '\x7d') ∨ (msg = "Expecting value" ∧ ch = ']') then
      [filename ++ ":" ++ toString l ++ ":" ++ toString c ++
        ": error: maybe trailing \x27,\x27 is dangling prior to closing braces?\n"]
    else [], ?_⟩
  simp only [showJsonLoadException]
  rw [hln]
  simp only [exceptBind_ok]
  rw [hch]
  simp only [exceptBind_ok]
  rw [hctx]
  simp only [exceptBind_ok]

/-- Does a line start with filename:digits:digits: — the claimed location
format of the diagnostics. -/
def locFormatted (filename line : String) : Bool :=
  let fn := filename.toList ++ [':']
  if fn.isPrefixOf line.toList then
    let rest := line.toList.drop fn.length
    let ds1 := rest.takeWhile Char.isDigit
    if ds1.isEmpty then false
    else
      match rest.drop ds1.length with
      | ':' :: rest2 =>
        let ds2 := rest2.takeWhile Char.isDigit
        if ds2.isEmpty then false
        else (rest2.drop ds2.length).head? == some ':'
      | _ => false
  else false

/-- A library behaviour producing one simple (contextless) validation
error against any document. -/
def c2ValLib : JsonLib :=
  ⟨fun _ => .ok (.jobj []), fun _ => none,
   fun _ _ => [⟨"\x27name\x27 is a required property", []⟩]⟩

/-- The input files of the C2 counterexample run. -/
def c2Vin : ValidateInput := ⟨"input.json", "\x7b\x7d", "schema.json", "\x7b\x7d"⟩

/-- C2 counterexample: a run whose input parses but fails schema
validation exits 1, yet its only diagnostic line is prefixed by the file
name alone — no stderr line of that run is in file:line:column format, so
the claimed diagnostic format does not hold for schema-validation
failures. -/
theorem c2_counterexample :
    (runValidate c2ValLib (fun _ => []) c2Vin 3).2 = ExitStatus.code 1 ∧
    (runValidate c2ValLib (fun _ => []) c2Vin 3).1 =
      ["input.json: \x27name\x27 is a required property\n"] ∧
    ((runValidate c2ValLib (fun _ => []) c2Vin 3).1.all
      (fun ln => !locFormatted "input.json" ln)) = true := by
  refine ⟨rfl, rfl, by decide⟩

/-- C2 amended: a JSON parse failure whose reported location lies inside
the input makes both scripts print the file:line:column diagnostic line
to stderr and exit 1; a schema-validation failure makes both scripts exit
1, with every contextless validation error printed as a single line
prefixed by the input file name (without line and column); a valid input
makes the validator exit 0 with no diagnostics. -/
theorem c2_validation_diagnostics_amended :
    (∀ (lib : JsonLib) (rd : SchemaErr → List String) (vin : ValidateInput)
        (ctxLines : Nat) (msg : String) (l c : Nat) (ln : String) (ch : Char),
      lib.decode vin.dataText = .error ⟨msg, .single l c⟩ →
      (pySplitNl vin.dataText).get? (l - 1) = some ln →
      ln.toList.get? (c - 1) = some ch →
      (runValidate lib rd vin ctxLines).2 = .code 1 ∧
      (vin.dataName ++ ":" ++ toString l ++ ":" ++ toString c ++
        ": error: " ++ msg ++ "\n") ∈ (runValidate lib rd vin ctxLines).1 ∧
      ∀ (pfxOpt : Option String) (nm : GenNames),
        (runGen lib rd vin pfxOpt nm).2.2 = .code 1) ∧
    (∀ (lib : JsonLib) (rd : SchemaErr → List String) (vin : ValidateInput)
        (ctxLines : Nat) (data schema : JVal),
      lib.decode vin.dataText = .ok data →
      lib.decode vin.schemaText = .ok schema →
      lib.checkSchemaErr schema = none →
      lib.validationErrs data schema ≠ [] →
      (runValidate lib rd vin ctxLines).2 = .code 1 ∧
      (∀ ex ∈ lib.validationErrs data schema, ex.context = [] →
        (vin.dataName ++ ": " ++ ex.message ++ "\n") ∈
          (runValidate lib rd vin ctxLines).1) ∧
      ∀ (pfxOpt : Option String) (nm : GenNames),
        (runGen lib rd vin pfxOpt nm).2.2 = .code 1) ∧
    (∀ (lib : JsonLib) (rd : SchemaErr → List String) (vin : ValidateInput)
        (ctxLines : Nat) (data schema : JVal),
      lib.decode vin.dataText = .ok data →
      lib.decode vin.schemaText = .ok schema →
      lib.checkSchemaErr schema = none →
      lib.validationErrs data schema = [] →
      runValidate lib rd vin ctxLines = ([], .code 0)) := by
  refine ⟨?_, ?_, ?_⟩
  · intro lib rd vin ctxLines msg l c ln ch hdec hln hch
    obtain ⟨pre, hint, hshow⟩ := showJsonLoadException_single_ok msg
      vin.dataText vin.dataName l c ctxLines ln ch hln hch
    have hjl : jsonLoadAndCheck lib rd vin ctxLines =
        (pre ++ [vin.dataName ++ ":" ++ toString l ++ ":" ++ toString c ++
          ": error: " ++ msg ++ "\n"] ++ hint, .error .valueError) := by
      simp only [jsonLoadAndCheck, hdec, hshow]
    obtain ⟨pre3, hint3, hshow3⟩ := showJsonLoadException_single_ok msg
      vin.dataText vin.dataName l c 3 ln ch hln hch
    have hjl3 : jsonLoadAndCheck lib rd vin 3 =
        (pre3 ++ [vin.dataName ++ ":" ++ toString l ++ ":" ++ toString c ++
          ": error: " ++ msg ++ "\n"] ++ hint3, .error .valueError) := by
      simp only [jsonLoadAndCheck, hdec, hshow3]
    refine ⟨?_, ?_, ?_⟩
    · simp [runValidate, hjl]
    · simp only [runValidate, hjl]
      exact List.mem_append.mpr (Or.inl (List.mem_append.mpr
        (Or.inr (List.mem_singleton_self _))))
    · intro pfxOpt nm
      simp [runGen, hjl3]
  · intro lib rd vin ctxLines data schema hd1 hd2 hcheck hev
    cases hval : lib.validationErrs data schema with
    | nil => exact absurd hval hev
    | cons e es =>
      have hjl : ∀ cl, jsonLoadAndCheck lib rd vin cl =
          (((e :: es).map (showSchemaException rd vin.dataName)).flatten,
            .error .validationError) := by
        intro cl
        simp only [jsonLoadAndCheck, hd1, hd2, hcheck, hval]
      refine ⟨?_, ?_, ?_⟩
      · simp [runValidate, hjl ctxLines]
      · intro ex hex hctxe
        have hsse : showSchemaException rd vin.dataName ex =
            [vin.dataName ++ ": " ++ ex.message ++ "\n"] := by
          unfold showSchemaException
          rw [hctxe]
          rfl
        simp only [runValidate, hjl ctxLines]
        exact List.mem_flatten.mpr ⟨showSchemaException rd vin.dataName ex,
          List.mem_map_of_mem _ hex,
          by rw [hsse]; exact List.mem_singleton_self _⟩
      · intro pfxOpt nm
        simp [runGen, hjl 3]
  · intro lib rd vin ctxLines data schema hd1 hd2 hcheck hval
    simp only [runValidate, jsonLoadAndCheck, hd1, hd2, hcheck, hval]

/-- C2 amended witness: all three conjuncts at concrete runs — a parse
failure, a validation failure with a contextless error, and a valid run. -/
theorem c2_validation_diagnostics_amended_witness :
    ((runValidate failingLib (fun _ => [])
        ⟨"input.json", "x", "schema.json", "\x7b\x7d"⟩ 3).2 = .code 1 ∧
      ("input.json" ++ ":" ++ toString 1 ++ ":" ++ toString 1 ++
        ": error: " ++ "Expecting value" ++ "\n") ∈
        (runValidate failingLib (fun _ => [])
          ⟨"input.json", "x", "schema.json", "\x7b\x7d"⟩ 3).1) ∧
    ((runValidate c2ValLib (fun _ => []) c2Vin 3).2 = .code 1 ∧
      ("input.json" ++ ": " ++ "\x27name\x27 is a required property" ++ "\n") ∈
        (runValidate c2ValLib (fun _ => []) c2Vin 3).1) ∧
    runValidate trivialLib (fun _ => []) c2Vin 3 = ([], .code 0) := by
  refine ⟨⟨?_, ?_⟩, ⟨?_, ?_⟩, ?_⟩
  · exact (c2_validation_diagnostics_amended.1 failingLib (fun _ => [])
      ⟨"input.json", "x", "schema.json", "\x7b\x7d"⟩ 3 "Expecting value" 1 1
      "x" 'x' rfl rfl rfl).1
  · exact (c2_validation_diagnostics_amended.1 failingLib (fun _ => [])
      ⟨"input.json", "x", "schema.json", "\x7b\x7d"⟩ 3 "Expecting value" 1 1
      "x" 'x' rfl rfl rfl).2.1
  · exact (c2_validation_diagnostics_amended.2.1 c2ValLib (fun _ => []) c2Vin 3
      (.jobj []) (.jobj []) rfl rfl rfl (by decide)).1
  · exact (c2_validation_diagnostics_amended.2.1 c2ValLib (fun _ => []) c2Vin 3
      (.jobj []) (.jobj []) rfl rfl rfl (by decide)).2.1
      ⟨"\x27name\x27 is a required property", []⟩ (by decide) rfl
  · exact c2_validation_diagnostics_amended.2.2 trivialLib (fun _ => []) c2Vin 3
      (.jobj []) (.jobj []) rfl rfl rfl rfl
